import Mathlib

/-!
Shallow embedding of `src/_msprimemodule.c`, the CPython extension module of
the msprime coalescent simulator, together with proofs about the behaviour of
its entry points.

Modelling conventions:
* CPython exceptions are values of `PyErr`; a C function that can set an
  exception and report failure is embedded as an `Except PyErr` computation.
* C `double` values that the module merely stores, compares and copies are
  modelled as `Rat`; `float64` array payloads that are only ever copied
  byte-for-byte are modelled by their 64-bit patterns as `Nat`.
* Python "number" objects are `PyNumber` (an int or a float);
  `PyFloat_AsDouble` and `PyLong_AsLong` are embedded explicitly.
* Kernel (`msp_*`) and tables-library (`tsk_*`) routines are not part of this
  translation unit; where their behaviour matters it is modelled from the
  specification, and each such definition says so in its doc comment.
-/

/-- A raised CPython exception, as set by the module through the
`PyErr_SetString` / `PyErr_Format` family. -/
inductive PyErr where
  /-- `PyExc_ValueError` with the given message. -/
  | valueError (msg : String)
  /-- `PyExc_TypeError` with the given message. -/
  | typeError (msg : String)
  /-- `MsprimeInputError`, set by `handle_input_error(section, err)`. -/
  | inputError (sec : String) (code : Int)
  /-- `MsprimeLibraryError`, set by `handle_library_error(err)` (and by
  `handle_tskit_library_error`). -/
  | libraryError (code : Int)
  /-- `PyExc_SystemError` (uninitialised object checks). -/
  | systemError (msg : String)
deriving DecidableEq, Repr

/-- A Python object that passes `PyNumber_Check`: an int or a float. -/
inductive PyNumber where
  | int (n : Int)
  | float (q : Rat)
deriving DecidableEq, Repr

/-- `PyFloat_AsDouble` on a number object: the numeric value as a double. -/
def pyFloatAsDouble : PyNumber → Rat
  | PyNumber.int n => (n : Rat)
  | PyNumber.float q => q

/-- `PyLong_AsLong` on a number object.  On an int it yields its value; a
float has no `__index__`, so the call fails and returns `-1` with an
exception pending, which the module never checks (it only ever compares the
result against bounds, so the `-1` is caught by the negative-value check). -/
def pyLongAsLong : PyNumber → Int
  | PyNumber.int n => n
  | PyNumber.float _ => -1

/-- A Python object in a position where the module checks `PyNumber_Check`:
either a number or some non-numeric object. -/
inductive PyVal where
  | num (x : PyNumber)
  | nonNum
deriving DecidableEq, Repr

/-- A value fetched from a Python dict by `get_dict_number`: the key can be
absent, bound to a non-number, or bound to a number. -/
inductive PyField where
  | absent
  | nonNum
  | num (x : PyNumber)
deriving DecidableEq, Repr

/-- `get_dict_number(dict, key)`: raises `ValueError` when the key is absent
and `TypeError` when the value is not a number. -/
def getDictNumber (v : PyField) (key : String) : Except PyErr PyNumber :=
  match v with
  | PyField.absent => Except.error (PyErr.valueError (key ++ " not specified"))
  | PyField.nonNum => Except.error (PyErr.typeError (key ++ " is not number"))
  | PyField.num x => Except.ok x

/-! ## C1: `Simulator_run` -/

/-- Kernel exit status `MSP_EXIT_COALESCENCE` (`msprime.h`, not under `src/`).
Modelled from the spec: non-negative codes are exit statuses and a
`0` status means complete coalescence (`Simulator_run` itself tests
`status == 0` for coalescence). -/
def MSP_EXIT_COALESCENCE : Int := 0

/-- Kernel exit status `MSP_EXIT_MAX_EVENTS` (`msprime.h`, not under `src/`).
Modelled from the spec: the distinct positive "yield" status returned when the
per-call event budget is exhausted. -/
def MSP_EXIT_MAX_EVENTS : Int := 1

/-- Kernel exit status `MSP_EXIT_MAX_TIME` (`msprime.h`, not under `src/`).
Modelled from the spec: the positive status returned on reaching `end_time`. -/
def MSP_EXIT_MAX_TIME : Int := 2

/-- One invocation of the kernel step function `msp_run(sim, end_time, chunk)`
made by `Simulator_run`. -/
structure KernelCall where
  end_time : Rat
  chunk : Nat
deriving DecidableEq, Repr

/-- Outcome of `Simulator_run`. -/
inductive RunResult where
  /-- The function returns `Py_True` (`coalesced = true`) or `Py_False`. -/
  | ret (coalesced : Bool)
  /-- The function raises and returns NULL. -/
  | raise (e : PyErr)
  /-- The supplied kernel trace was exhausted while the kernel kept yielding
  `MSP_EXIT_MAX_EVENTS`; the C loop is still running. -/
  | running
deriving DecidableEq, Repr

/-- The `while (not_done)` loop of `Simulator_run`.  The kernel, which is not
part of this translation unit, is represented by the list of statuses its
successive invocations return.  The result is paired with the trace of kernel
invocations the loop made. -/
def Simulator_run_loop (end_time : Rat) : List Int → RunResult × List KernelCall
  | [] => (RunResult.running, [])
  | status :: rest =>
      let call : KernelCall := ⟨end_time, 1024⟩
      if status < 0 then
        (RunResult.raise (PyErr.libraryError status), [call])
      else if status = MSP_EXIT_MAX_EVENTS then
        let r := Simulator_run_loop end_time rest
        (r.1, call :: r.2)
      else
        (RunResult.ret (decide (status = 0)), [call])

/-- `Simulator_run(self, end_time)`: validates `end_time`, then repeatedly
calls `msp_run(sim, end_time, chunk)` with `chunk = 1024` while the status is
`MSP_EXIT_MAX_EVENTS`; negative statuses raise `MsprimeLibraryError`; on
termination it returns `True` iff the final status is `0`. -/
def Simulator_run (end_time : Rat) (statuses : List Int) : RunResult × List KernelCall :=
  if end_time < 0 then
    (RunResult.raise (PyErr.valueError "end_time must be > 0"), [])
  else
    Simulator_run_loop end_time statuses

/-! ## C9: the GSL error-handler pointer -/

/-- The process-wide GSL error-handler pointer together with the module's one
static cell `old_gsl_error_handler`.  Handler pointers are modelled as
integers, `0` standing for NULL (handling turned off). -/
structure GslHandlerState where
  /-- The process-wide handler installed in GSL. -/
  handler : Int
  /-- The static `old_gsl_error_handler` cell of the module. -/
  old_handler : Int
deriving DecidableEq, Repr

/-- `msprime_unset_gsl_error_handler`: stores the current process handler in
`old_gsl_error_handler` and turns handling off
(`old_gsl_error_handler = gsl_set_error_handler_off()`). -/
def msprime_unset_gsl_error_handler (s : GslHandlerState) : GslHandlerState :=
  { handler := 0, old_handler := s.handler }

/-- `msprime_restore_gsl_error_handler`: reinstalls the stored handler
(`gsl_set_error_handler(old_gsl_error_handler)`). -/
def msprime_restore_gsl_error_handler (s : GslHandlerState) : GslHandlerState :=
  { s with handler := s.old_handler }

/-- The handler-related effect of `PyInit__msprime`: the module initialiser
only sets the static cell to NULL (`old_gsl_error_handler = NULL`), leaving
the process-wide handler untouched; the capture itself happens through the
import-time call of `unset_gsl_error_handler`. -/
def PyInit_msprime_handler_effect (s : GslHandlerState) : GslHandlerState :=
  { s with old_handler := 0 }

/-! ## C10: `RandomGenerator` -/

/-- The state of a successfully constructed `RandomGenerator`: the stored
seed (the GSL rng object itself carries no further caller-visible state
here). -/
structure RandomGeneratorState where
  seed : Nat
deriving DecidableEq, Repr

/-- `RandomGenerator_init(seed)`.  `seed` is the value delivered by the `"K"`
(unsigned long long) argument converter, hence a value below `2^64`.  Seeds
`0` and `>= 2^32` are rejected with `ValueError`; otherwise the seed is stored
and the GSL rng is seeded with it. -/
def RandomGenerator_init (seed : Nat) : Except PyErr RandomGeneratorState :=
  if seed = 0 ∨ seed ≥ 2 ^ 32 then
    Except.error (PyErr.valueError "seeds must be greater than 0 and less than 2^32")
  else
    Except.ok { seed := seed }

/-- `RandomGenerator_get_seed`: returns the stored seed. -/
def RandomGenerator_get_seed (s : RandomGeneratorState) : Nat :=
  s.seed

/-! ## C3: `parse_samples` -/

/-- An element of the Python list handed to `parse_samples`: either a tuple
(with its elements) or some non-tuple object. -/
inductive SampleEntry where
  | notTuple
  | tuple (elems : List PyVal)
deriving DecidableEq, Repr

/-- `parse_samples(py_samples, num_populations, ...)`: walks the list in
order; each entry must be a 2-tuple whose first element converts to a long in
`[0, num_populations)` and whose second element is a number `≥ 0`; the first
offending entry aborts with the corresponding exception.  On success the
returned list holds each sample's `(population_id, time)` unchanged, and the
reported `num_samples` is its length. -/
def parse_samples (num_populations : Int) : List SampleEntry → Except PyErr (List (Int × Rat))
  | [] => Except.ok []
  | SampleEntry.notTuple :: _ => Except.error (PyErr.typeError "not a tuple")
  | SampleEntry.tuple es :: rest =>
    match es with
    | [PyVal.num x, v1] =>
        let pop := pyLongAsLong x
        if pop < 0 then
          Except.error (PyErr.valueError "Negative population ID in sample")
        else if pop ≥ num_populations then
          Except.error (PyErr.valueError "Invalid population reference in sample")
        else
          match v1 with
          | PyVal.nonNum => Except.error (PyErr.typeError "time is not number")
          | PyVal.num y =>
              if pyFloatAsDouble y < 0 then
                Except.error (PyErr.valueError "negative times not valid")
              else
                (parse_samples num_populations rest).map
                  (fun s => (pop, pyFloatAsDouble y) :: s)
    | [PyVal.nonNum, _] => Except.error (PyErr.typeError "population is not number")
    | _ => Except.error (PyErr.valueError "sample must be (population,time) tuple")

/-! ## C4: `Simulator_parse_migration_matrix` -/

/-- The validation loop of `Simulator_parse_migration_matrix`: each entry must
be a number and its double value must be non-negative; the first offending
entry aborts.  On success the converted doubles are collected in order. -/
def migration_matrix_loop : List PyVal → Except PyErr (List Rat)
  | [] => Except.ok []
  | PyVal.nonNum :: _ => Except.error (PyErr.typeError "Migration rate not a number")
  | PyVal.num x :: rest =>
      if pyFloatAsDouble x < 0 then
        Except.error (PyErr.valueError "Negative values not permitted")
      else
        (migration_matrix_loop rest).map (fun m => pyFloatAsDouble x :: m)

/-- `Simulator_parse_migration_matrix(self, py_migration_matrix)`: requires
the flat list to have exactly `num_populations * num_populations` entries,
all numbers, all non-negative, and then hands the converted matrix to
`msp_set_migration_matrix` unchanged.  The kernel setter is not under `src/`;
modelled from the spec (section 6): a row-major `P x P` matrix of
non-negative doubles is accepted, so the already-validated matrix installs
without error and the returned value is the matrix as passed. -/
def Simulator_parse_migration_matrix (num_populations : Nat) (entries : List PyVal) :
    Except PyErr (List Rat) :=
  if num_populations * num_populations ≠ entries.length then
    Except.error (PyErr.valueError
      "Migration matrix must be a flattened num_populations*num_populations square array")
  else
    migration_matrix_loop entries

/-! ## Theorems for C1, C9, C10 -/

/-- **C1.** For every `end_time ≥ 0` and every sequence of kernel statuses:
every kernel invocation made by `Simulator_run` uses the chunk budget `1024`
(and the caller's `end_time`); the loop keeps running exactly while the
kernel returns `MSP_EXIT_MAX_EVENTS` (the number of invocations is the length
of the initial run of `MSP_EXIT_MAX_EVENTS` statuses plus the one terminating
call, capped by the trace length); and the outcome is determined by the first
status that is not `MSP_EXIT_MAX_EVENTS`: the function returns `True` iff
that status is `0` (COALESCED), returns `False` for every other non-negative
status (such as `MSP_EXIT_MAX_TIME`), and raises `MsprimeLibraryError` for
every negative status. -/
theorem Simulator_run_spec (end_time : Rat) (statuses : List Int)
    (hend : 0 ≤ end_time) :
    (∀ c ∈ (Simulator_run end_time statuses).2, c.end_time = end_time ∧ c.chunk = 1024) ∧
    (Simulator_run end_time statuses).2.length =
      min statuses.length
        ((statuses.takeWhile (fun s => s == MSP_EXIT_MAX_EVENTS)).length + 1) ∧
    (Simulator_run end_time statuses).1 =
      (match (statuses.dropWhile (fun s => s == MSP_EXIT_MAX_EVENTS)).head? with
        | none => RunResult.running
        | some s =>
            if s < 0 then RunResult.raise (PyErr.libraryError s)
            else RunResult.ret (decide (s = 0))) := by
  have hrun : Simulator_run end_time statuses = Simulator_run_loop end_time statuses := by
    unfold Simulator_run
    rw [if_neg (by exact not_lt.mpr hend)]
  rw [hrun]
  clear hrun
  induction statuses with
  | nil =>
      simp [Simulator_run_loop]
  | cons s rest ih =>
      by_cases hneg : s < 0
      · have hne : ¬ (s == MSP_EXIT_MAX_EVENTS) = true := by
          simp only [beq_iff_eq]
          intro h
          rw [h] at hneg
          exact absurd hneg (by norm_num [MSP_EXIT_MAX_EVENTS])
        simp [Simulator_run_loop, hneg, List.takeWhile, List.dropWhile, hne]
      · by_cases hmax : s = MSP_EXIT_MAX_EVENTS
        · subst hmax
          have hnn : ¬ (MSP_EXIT_MAX_EVENTS < 0) := by norm_num [MSP_EXIT_MAX_EVENTS]
          have hstep : Simulator_run_loop end_time (MSP_EXIT_MAX_EVENTS :: rest) =
              ((Simulator_run_loop end_time rest).1,
                ⟨end_time, 1024⟩ :: (Simulator_run_loop end_time rest).2) := by
            simp [Simulator_run_loop, hnn]
          rw [hstep]
          refine ⟨?_, ?_, ?_⟩
          · intro c hc
            rcases List.mem_cons.mp hc with h | h
            · subst h; exact ⟨rfl, rfl⟩
            · exact ih.1 c h
          · simp only [List.length_cons, List.takeWhile, List.dropWhile,
              beq_self_eq_true]
            rw [ih.2.1]
            omega
          · simp only [List.dropWhile, beq_self_eq_true]
            exact ih.2.2
        · have hne : ¬ (s == MSP_EXIT_MAX_EVENTS) = true := by
            simp only [beq_iff_eq]; exact hmax
          simp [Simulator_run_loop, hneg, hmax, List.takeWhile, List.dropWhile, hne]

/-- Witness for C1: statuses `[MAX_EVENTS, MAX_EVENTS, 0]` with
`end_time = 5` give two yielding chunks of 1024 events plus a final call, and
the run reports coalescence. -/
theorem Simulator_run_spec_witness :
    (0 : Rat) ≤ 5 ∧
      (Simulator_run 5 [1, 1, 0]).1 =
        (match (([1, 1, 0] : List Int).dropWhile (fun s => s == MSP_EXIT_MAX_EVENTS)).head? with
          | none => RunResult.running
          | some s =>
              if s < 0 then RunResult.raise (PyErr.libraryError s)
              else RunResult.ret (decide (s = 0))) :=
  ⟨by norm_num, (Simulator_run_spec 5 [1, 1, 0] (by norm_num)).2.2⟩

/-- **C9.** The module keeps a single static cell for the process-wide GSL
error handler: after an `unset_gsl_error_handler` / `restore_gsl_error_handler`
pair the process handler pointer is exactly what it was beforehand, and this
also holds across the whole load sequence (module init, which nulls the static
cell, followed by the import-time `unset` and a teardown `restore`). -/
theorem gsl_error_handler_round_trip (s : GslHandlerState) :
    (msprime_restore_gsl_error_handler (msprime_unset_gsl_error_handler s)).handler
        = s.handler ∧
    (msprime_restore_gsl_error_handler
        (msprime_unset_gsl_error_handler
          (PyInit_msprime_handler_effect s))).handler = s.handler ∧
    (PyInit_msprime_handler_effect s).handler = s.handler := by
  refine ⟨rfl, rfl, rfl⟩

/-- **C10.** For every seed representable in the `"K"` converter's range
(below `2^64`): construction succeeds iff `0 < seed < 2^32`; seed `0` and any
seed `≥ 2^32` raise `ValueError`; and for every accepted seed, `get_seed`
returns exactly the seed supplied. -/
theorem RandomGenerator_init_spec (seed : Nat) (hseed : seed < 2 ^ 64) :
    ((∃ s, RandomGenerator_init seed = Except.ok s) ↔ 0 < seed ∧ seed < 2 ^ 32) ∧
    (seed = 0 ∨ seed ≥ 2 ^ 32 →
      RandomGenerator_init seed =
        Except.error
          (PyErr.valueError "seeds must be greater than 0 and less than 2^32")) ∧
    (∀ s, RandomGenerator_init seed = Except.ok s →
      RandomGenerator_get_seed s = seed) := by
  refine ⟨?_, ?_, ?_⟩
  · constructor
    · rintro ⟨s, hs⟩
      unfold RandomGenerator_init at hs
      by_cases h : seed = 0 ∨ seed ≥ 2 ^ 32
      · rw [if_pos h] at hs; exact absurd hs (by simp)
      · push_neg at h
        exact ⟨Nat.pos_of_ne_zero h.1, h.2⟩
    · rintro ⟨h0, h32⟩
      refine ⟨{ seed := seed }, ?_⟩
      unfold RandomGenerator_init
      rw [if_neg (show ¬ (seed = 0 ∨ seed ≥ 2 ^ 32) by
        push_neg
        exact ⟨Nat.pos_iff_ne_zero.mp h0, h32⟩)]
  · intro h
    unfold RandomGenerator_init
    rw [if_pos h]
  · intro s hs
    unfold RandomGenerator_init at hs
    by_cases h : seed = 0 ∨ seed ≥ 2 ^ 32
    · rw [if_pos h] at hs; exact absurd hs (by simp)
    · rw [if_neg h] at hs
      cases hs
      rfl

/-- Witness for C10: seed 42 is below `2^64`, is accepted, and is reported
back unchanged by `get_seed`. -/
theorem RandomGenerator_init_spec_witness :
    (∃ s, RandomGenerator_init 42 = Except.ok s) ∧
      (∀ s, RandomGenerator_init 42 = Except.ok s → RandomGenerator_get_seed s = 42) :=
  ⟨(RandomGenerator_init_spec 42 (by norm_num)).1.mpr (by norm_num),
    (RandomGenerator_init_spec 42 (by norm_num)).2.2⟩

/-- Unfolding of `Except.map` into an existence statement (helper). -/
theorem except_map_eq_ok {ε α β : Type} (f : α → β) (x : Except ε α) (b : β) :
    x.map f = Except.ok b ↔ ∃ a, x = Except.ok a ∧ f a = b := by
  cases x <;> simp [Except.map]

/-- An entry accepted by `parse_samples` against `P` populations: a 2-tuple
of an integer population id in `[0, P)` and a non-negative numeric time
(helper predicate). -/
def sampleEntryOk (P : Int) (e : SampleEntry) : Prop :=
  ∃ p t, e = SampleEntry.tuple [PyVal.num (PyNumber.int p), PyVal.num t] ∧
    0 ≤ p ∧ p < P ∧ 0 ≤ pyFloatAsDouble t

/-- **C3.** For every sample list and configured number of populations `P`:
parsing succeeds iff every entry is a `(population, time)` pair with an
integer `population` in `[0, P)` and a numeric `time ≥ 0` (equivalently, it
fails iff some entry is not such a pair, or has a negative population id, a
population id `≥ P`, or a negative time); and on success each entry's
population id and time are stored unchanged, the number of parsed samples
being the length of the input list. -/
theorem parse_samples_spec (P : Int) (entries : List SampleEntry) :
    ((∃ s, parse_samples P entries = Except.ok s) ↔ ∀ e ∈ entries, sampleEntryOk P e) ∧
    (∀ s, parse_samples P entries = Except.ok s →
      s.length = entries.length ∧
      List.Forall₂
        (fun e pt =>
          ∃ t, e = SampleEntry.tuple [PyVal.num (PyNumber.int pt.1), PyVal.num t] ∧
            pyFloatAsDouble t = pt.2)
        entries s) := by
  induction entries with
  | nil =>
      refine ⟨⟨fun _ => by simp, fun _ => ⟨[], rfl⟩⟩, fun s hs => ?_⟩
      simp [parse_samples] at hs
      subst hs
      simp
  | cons e rest ih =>
      cases e with
      | notTuple =>
          refine ⟨⟨?_, ?_⟩, ?_⟩
          · rintro ⟨s, hs⟩
            simp [parse_samples] at hs
          · intro h
            have := h SampleEntry.notTuple (by simp)
            rcases this with ⟨p, t, h, _⟩
            exact absurd h (by simp)
          · intro s hs
            simp [parse_samples] at hs
      | tuple es =>
          match es with
          | [] =>
              refine ⟨⟨?_, ?_⟩, ?_⟩
              · rintro ⟨s, hs⟩
                simp [parse_samples] at hs
              · intro h
                rcases h (SampleEntry.tuple []) (by simp) with ⟨p, t, h, _⟩
                simp at h
              · intro s hs
                simp [parse_samples] at hs
          | [v0] =>
              refine ⟨⟨?_, ?_⟩, ?_⟩
              · rintro ⟨s, hs⟩
                simp [parse_samples] at hs
              · intro h
                rcases h (SampleEntry.tuple [v0]) (by simp) with ⟨p, t, h, _⟩
                simp at h
              · intro s hs
                simp [parse_samples] at hs
          | v0 :: v1 :: v2 :: tl =>
              refine ⟨⟨?_, ?_⟩, ?_⟩
              · rintro ⟨s, hs⟩
                simp [parse_samples] at hs
              · intro h
                rcases h (SampleEntry.tuple (v0 :: v1 :: v2 :: tl)) (by simp) with ⟨p, t, h, _⟩
                simp at h
              · intro s hs
                simp [parse_samples] at hs
          | [v0, v1] =>
              cases v0 with
              | nonNum =>
                  refine ⟨⟨?_, ?_⟩, ?_⟩
                  · rintro ⟨s, hs⟩
                    simp [parse_samples] at hs
                  · intro h
                    rcases h (SampleEntry.tuple [PyVal.nonNum, v1]) (by simp) with ⟨p, t, h, _⟩
                    simp at h
                  · intro s hs
                    simp [parse_samples] at hs
              | num x =>
                  cases x with
                  | float q =>
                      have hneg : pyLongAsLong (PyNumber.float q) < 0 := by
                        simp [pyLongAsLong]
                      refine ⟨⟨?_, ?_⟩, ?_⟩
                      · rintro ⟨s, hs⟩
                        simp [parse_samples, hneg] at hs
                      · intro h
                        rcases h (SampleEntry.tuple [PyVal.num (PyNumber.float q), v1])
                          (by simp) with ⟨p, t, h, _⟩
                        simp at h
                      · intro s hs
                        simp [parse_samples, hneg] at hs
                  | int p =>
                      by_cases hp0 : p < 0
                      · refine ⟨⟨?_, ?_⟩, ?_⟩
                        · rintro ⟨s, hs⟩
                          simp [parse_samples, pyLongAsLong, hp0] at hs
                        · intro h
                          rcases h (SampleEntry.tuple [PyVal.num (PyNumber.int p), v1])
                            (by simp) with ⟨p2, t, h, hge, _⟩
                          simp at h
                          omega
                        · intro s hs
                          simp [parse_samples, pyLongAsLong, hp0] at hs
                      · by_cases hpP : p ≥ P
                        · refine ⟨⟨?_, ?_⟩, ?_⟩
                          · rintro ⟨s, hs⟩
                            simp [parse_samples, pyLongAsLong, hp0, hpP] at hs
                          · intro h
                            rcases h (SampleEntry.tuple [PyVal.num (PyNumber.int p), v1])
                              (by simp) with ⟨p2, t, h, _, hlt, _⟩
                            simp at h
                            omega
                          · intro s hs
                            simp [parse_samples, pyLongAsLong, hp0, hpP] at hs
                        · cases v1 with
                          | nonNum =>
                              refine ⟨⟨?_, ?_⟩, ?_⟩
                              · rintro ⟨s, hs⟩
                                simp [parse_samples, pyLongAsLong, hp0, hpP] at hs
                              · intro h
                                rcases h (SampleEntry.tuple
                                    [PyVal.num (PyNumber.int p), PyVal.nonNum])
                                  (by simp) with ⟨p2, t, h, _⟩
                                simp at h
                              · intro s hs
                                simp [parse_samples, pyLongAsLong, hp0, hpP] at hs
                          | num y =>
                              by_cases hy : pyFloatAsDouble y < 0
                              · refine ⟨⟨?_, ?_⟩, ?_⟩
                                · rintro ⟨s, hs⟩
                                  simp [parse_samples, pyLongAsLong, hp0, hpP, hy] at hs
                                · intro h
                                  rcases h (SampleEntry.tuple
                                      [PyVal.num (PyNumber.int p), PyVal.num y])
                                    (by simp) with ⟨p2, t, h, _, _, ht⟩
                                  simp at h
                                  rcases h with ⟨h1, h2⟩
                                  subst h2
                                  exact absurd ht (not_le.mpr hy)
                                · intro s hs
                                  simp [parse_samples, pyLongAsLong, hp0, hpP, hy] at hs
                              · have hstep : parse_samples P
                                    (SampleEntry.tuple
                                      [PyVal.num (PyNumber.int p), PyVal.num y] :: rest) =
                                    (parse_samples P rest).map
                                      (fun s => (p, pyFloatAsDouble y) :: s) := by
                                  simp [parse_samples, pyLongAsLong, hp0, hpP, hy]
                                refine ⟨⟨?_, ?_⟩, ?_⟩
                                · rintro ⟨s, hs⟩
                                  rw [hstep] at hs
                                  rcases (except_map_eq_ok _ _ _).mp hs with ⟨s0, hs0, _⟩
                                  intro e he
                                  rcases List.mem_cons.mp he with rfl | he
                                  · exact ⟨p, y, rfl, not_lt.mp hp0, not_le.mp hpP,
                                      not_lt.mp hy⟩
                                  · exact (ih.1.mp ⟨s0, hs0⟩) e he
                                · intro h
                                  rcases ih.1.mpr (fun e he => h e (List.mem_cons_of_mem _ he))
                                    with ⟨s0, hs0⟩
                                  exact ⟨(p, pyFloatAsDouble y) :: s0, by
                                    rw [hstep, hs0]; rfl⟩
                                · intro s hs
                                  rw [hstep] at hs
                                  rcases (except_map_eq_ok _ _ _).mp hs with ⟨s0, hs0, hmap⟩
                                  subst hmap
                                  rcases ih.2 s0 hs0 with ⟨hlen, hfa⟩
                                  refine ⟨by simp [hlen], ?_⟩
                                  exact List.Forall₂.cons ⟨y, rfl, rfl⟩ hfa

/-- Witness for C3: two well-formed samples against two populations parse
successfully. -/
theorem parse_samples_spec_witness :
    ∃ s, parse_samples 2
        [SampleEntry.tuple [PyVal.num (PyNumber.int 0), PyVal.num (PyNumber.int 0)],
         SampleEntry.tuple [PyVal.num (PyNumber.int 1), PyVal.num (PyNumber.float 3)]] =
      Except.ok s :=
  (parse_samples_spec 2 _).1.mpr (by
    intro e he
    simp at he
    rcases he with rfl | rfl
    · exact ⟨0, PyNumber.int 0, rfl, by norm_num, by norm_num, by
        norm_num [pyFloatAsDouble]⟩
    · exact ⟨1, PyNumber.float 3, rfl, by norm_num, by norm_num, by
        norm_num [pyFloatAsDouble]⟩)

/-- The validation loop of the migration-matrix parser succeeds iff every
entry is a non-negative number (helper). -/
theorem migration_matrix_loop_ok_iff (entries : List PyVal) :
    (∃ m, migration_matrix_loop entries = Except.ok m) ↔
      ∀ e ∈ entries, ∃ x, e = PyVal.num x ∧ 0 ≤ pyFloatAsDouble x := by
  induction entries with
  | nil => exact ⟨fun _ => by simp, fun _ => ⟨[], rfl⟩⟩
  | cons e rest ih =>
      cases e with
      | nonNum =>
          refine ⟨?_, ?_⟩
          · rintro ⟨m, hm⟩
            simp [migration_matrix_loop] at hm
          · intro h
            rcases h PyVal.nonNum (by simp) with ⟨x, hx, _⟩
            exact absurd hx (by simp)
      | num x =>
          by_cases hx : pyFloatAsDouble x < 0
          · refine ⟨?_, ?_⟩
            · rintro ⟨m, hm⟩
              simp [migration_matrix_loop, hx] at hm
            · intro h
              rcases h (PyVal.num x) (by simp) with ⟨x2, hx2, hge⟩
              cases hx2
              exact absurd hge (not_le.mpr hx)
          · have hstep : migration_matrix_loop (PyVal.num x :: rest) =
                (migration_matrix_loop rest).map (fun m => pyFloatAsDouble x :: m) := by
              simp [migration_matrix_loop, hx]
            refine ⟨?_, ?_⟩
            · rintro ⟨m, hm⟩
              rw [hstep] at hm
              rcases (except_map_eq_ok _ _ _).mp hm with ⟨m0, hm0, _⟩
              intro e he
              rcases List.mem_cons.mp he with rfl | he
              · exact ⟨x, rfl, not_lt.mp hx⟩
              · exact (ih.mp ⟨m0, hm0⟩) e he
            · intro h
              rcases ih.mpr (fun e he => h e (List.mem_cons_of_mem _ he)) with ⟨m0, hm0⟩
              exact ⟨pyFloatAsDouble x :: m0, by rw [hstep, hm0]; rfl⟩

/-- The validation loop of the migration-matrix parser converts entries in
order and unchanged (helper). -/
theorem migration_matrix_loop_ok_values (entries : List PyVal) :
    ∀ m, migration_matrix_loop entries = Except.ok m →
      List.Forall₂ (fun e q => ∃ x, e = PyVal.num x ∧ pyFloatAsDouble x = q) entries m := by
  induction entries with
  | nil =>
      intro m hm
      simp [migration_matrix_loop] at hm
      subst hm
      simp
  | cons e rest ih =>
      intro m hm
      cases e with
      | nonNum => simp [migration_matrix_loop] at hm
      | num x =>
          by_cases hx : pyFloatAsDouble x < 0
          · simp [migration_matrix_loop, hx] at hm
          · have hstep : migration_matrix_loop (PyVal.num x :: rest) =
                (migration_matrix_loop rest).map (fun m => pyFloatAsDouble x :: m) := by
              simp [migration_matrix_loop, hx]
            rw [hstep] at hm
            rcases (except_map_eq_ok _ _ _).mp hm with ⟨m0, hm0, hmap⟩
            subst hmap
            exact List.Forall₂.cons ⟨x, rfl, rfl⟩ (ih m0 hm0)

/-- **C4.** For every configured number of populations `P`: setting the
migration matrix succeeds iff the supplied flat list has exactly `P * P`
entries, every entry is a number, and no entry is negative; and on success
the `P * P` non-negative doubles are passed to the kernel in order and
unchanged. -/
theorem Simulator_parse_migration_matrix_spec (P : Nat) (entries : List PyVal) :
    ((∃ m, Simulator_parse_migration_matrix P entries = Except.ok m) ↔
      (entries.length = P * P ∧
        ∀ e ∈ entries, ∃ x, e = PyVal.num x ∧ 0 ≤ pyFloatAsDouble x)) ∧
    (∀ m, Simulator_parse_migration_matrix P entries = Except.ok m →
      m.length = P * P ∧
      List.Forall₂ (fun e q => ∃ x, e = PyVal.num x ∧ pyFloatAsDouble x = q) entries m) := by
  by_cases hsz : P * P ≠ entries.length
  · refine ⟨⟨?_, ?_⟩, ?_⟩
    · rintro ⟨m, hm⟩
      simp [Simulator_parse_migration_matrix, hsz] at hm
    · rintro ⟨hlen, _⟩
      exact absurd hlen.symm hsz
    · intro m hm
      simp [Simulator_parse_migration_matrix, hsz] at hm
  · push_neg at hsz
    have hstep : ∀ m, Simulator_parse_migration_matrix P entries = m ↔
        migration_matrix_loop entries = m := by
      intro m
      simp [Simulator_parse_migration_matrix, hsz]
    refine ⟨⟨?_, ?_⟩, ?_⟩
    · rintro ⟨m, hm⟩
      exact ⟨hsz.symm, (migration_matrix_loop_ok_iff entries).mp ⟨m, (hstep _).mp hm⟩⟩
    · rintro ⟨_, hall⟩
      rcases (migration_matrix_loop_ok_iff entries).mpr hall with ⟨m, hm⟩
      exact ⟨m, (hstep _).mpr hm⟩
    · intro m hm
      have hfa := migration_matrix_loop_ok_values entries m ((hstep _).mp hm)
      exact ⟨by rw [← List.Forall₂.length_eq hfa, hsz], hfa⟩

/-- Witness for C4: with one population, the singleton matrix `[3.0]` is
accepted. -/
theorem Simulator_parse_migration_matrix_spec_witness :
    ∃ m, Simulator_parse_migration_matrix 1 [PyVal.num (PyNumber.float 3)] =
      Except.ok m :=
  (Simulator_parse_migration_matrix_spec 1 [PyVal.num (PyNumber.float 3)]).1.mpr
    (by
      refine ⟨by norm_num, ?_⟩
      intro e he
      simp at he
      subst he
      exact ⟨PyNumber.float 3, rfl, by norm_num [pyFloatAsDouble]⟩)

/-! ## C5, C6: `Simulator_parse_simulation_model` and `Simulator_get_model` -/

/-- The kernel's installed simulation model (`simulation_model_t`): the model
type tag together with its model-specific parameters. -/
inductive SimModel where
  | hudson
  | smc
  | smcPrime
  | dtwf
  | wfPed
  | dirac (psi c : Rat)
  | beta (alpha truncation_point : Rat)
  | sweepGenicSelection (position start_frequency end_frequency alpha dt : Rat)
deriving DecidableEq, Repr

/-- A kernel simulation model together with its reference size. -/
structure SimulationModel where
  model : SimModel
  reference_size : Rat
deriving DecidableEq, Repr

/-- `msp_set_simulation_model_hudson` (kernel, not under `src/`).  Modelled
from the spec (section 6): installs the named model object with its
reference size. -/
def msp_set_simulation_model_hudson (ref : Rat) : SimulationModel :=
  ⟨SimModel.hudson, ref⟩

/-- `msp_set_simulation_model_smc` (kernel, not under `src/`); modelled from
the spec as for `hudson`. -/
def msp_set_simulation_model_smc (ref : Rat) : SimulationModel :=
  ⟨SimModel.smc, ref⟩

/-- `msp_set_simulation_model_smc_prime` (kernel, not under `src/`); modelled
from the spec as for `hudson`. -/
def msp_set_simulation_model_smc_prime (ref : Rat) : SimulationModel :=
  ⟨SimModel.smcPrime, ref⟩

/-- `msp_set_simulation_model_dtwf` (kernel, not under `src/`); modelled from
the spec as for `hudson`. -/
def msp_set_simulation_model_dtwf (ref : Rat) : SimulationModel :=
  ⟨SimModel.dtwf, ref⟩

/-- `msp_set_simulation_model_wf_ped` (kernel, not under `src/`); modelled
from the spec as for `hudson`. -/
def msp_set_simulation_model_wf_ped (ref : Rat) : SimulationModel :=
  ⟨SimModel.wfPed, ref⟩

/-- `msp_set_simulation_model_dirac` (kernel, not under `src/`).  Modelled
from the spec (section 6): installs the dirac model object with the
parameters it is given (the wrapper has already validated them). -/
def msp_set_simulation_model_dirac (ref psi c : Rat) : SimulationModel :=
  ⟨SimModel.dirac psi c, ref⟩

/-- `msp_set_simulation_model_beta` (kernel, not under `src/`).  Modelled
from the spec (section 6): installs the beta model object with the `alpha`
and `truncation_point` it is given; the section-6 model-object contract for
`beta`, unlike the one for `dirac`, pins no parameter domains, and the
wrapper's own comment records that range checking is a TODO. -/
def msp_set_simulation_model_beta (ref alpha truncation_point : Rat) : SimulationModel :=
  ⟨SimModel.beta alpha truncation_point, ref⟩

/-- `msp_set_simulation_model_sweep_genic_selection` (kernel, not under
`src/`); modelled from the spec (section 6): installs the sweep model with its
five parameters. -/
def msp_set_simulation_model_sweep_genic_selection
    (ref position start_frequency end_frequency alpha dt : Rat) : SimulationModel :=
  ⟨SimModel.sweepGenicSelection position start_frequency end_frequency alpha dt, ref⟩

/-- The Python model dictionary as consumed by
`Simulator_parse_simulation_model`: the `name` entry (a string, `none` when
the key is absent) and the numeric entries the various models read. -/
structure ModelDict where
  name : Option String
  reference_size : PyField
  psi : PyField
  c : PyField
  alpha : PyField
  truncation_point : PyField
  position : PyField
  start_frequency : PyField
  end_frequency : PyField
  dt : PyField
deriving DecidableEq, Repr

/-- `Simulator_parse_sweep_genic_selection_model`: reads the five sweep
parameters and installs the sweep model. -/
def Simulator_parse_sweep_genic_selection_model (d : ModelDict) (ref : Rat) :
    Except PyErr SimulationModel := do
  let position ← getDictNumber d.position "position"
  let start_frequency ← getDictNumber d.start_frequency "start_frequency"
  let end_frequency ← getDictNumber d.end_frequency "end_frequency"
  let alpha ← getDictNumber d.alpha "alpha"
  let dt ← getDictNumber d.dt "dt"
  Except.ok (msp_set_simulation_model_sweep_genic_selection ref
    (pyFloatAsDouble position) (pyFloatAsDouble start_frequency)
    (pyFloatAsDouble end_frequency) (pyFloatAsDouble alpha) (pyFloatAsDouble dt))

/-- `Simulator_parse_simulation_model(self, py_model)`: validates
`reference_size > 0`, dispatches on the `name` string, performs the
model-specific parameter validation (`dirac` checks `0 < psi < 1` and
`c ≥ 0`; `beta` performs no range check, the source marking it as a TODO),
and installs the selected kernel model. -/
def Simulator_parse_simulation_model (d : ModelDict) : Except PyErr SimulationModel := do
  let refnum ← getDictNumber d.reference_size "reference_size"
  let reference_size := pyFloatAsDouble refnum
  if reference_size ≤ 0 then
    Except.error (PyErr.valueError "population size must be >= 0")
  else
    match d.name with
    | none => Except.error (PyErr.valueError "name not specified")
    | some name =>
      if name = "hudson" then
        Except.ok (msp_set_simulation_model_hudson reference_size)
      else if name = "dtwf" then
        Except.ok (msp_set_simulation_model_dtwf reference_size)
      else if name = "wf_ped" then
        Except.ok (msp_set_simulation_model_wf_ped reference_size)
      else if name = "smc" then
        Except.ok (msp_set_simulation_model_smc reference_size)
      else if name = "smc_prime" then
        Except.ok (msp_set_simulation_model_smc_prime reference_size)
      else if name = "dirac" then do
        let psinum ← getDictNumber d.psi "psi"
        let cnum ← getDictNumber d.c "c"
        let psi := pyFloatAsDouble psinum
        let c := pyFloatAsDouble cnum
        if psi ≤ 0 ∨ psi ≥ 1 then
          Except.error (PyErr.valueError "Must have 0 < psi < 1")
        else if c < 0 then
          Except.error (PyErr.valueError "c >= 0")
        else
          Except.ok (msp_set_simulation_model_dirac reference_size psi c)
      else if name = "beta" then do
        let alphanum ← getDictNumber d.alpha "alpha"
        let tnum ← getDictNumber d.truncation_point "truncation_point"
        -- the source carries "TODO range checking on alpha and
        -- truncation_point" at this point: the values are passed through
        Except.ok (msp_set_simulation_model_beta reference_size
          (pyFloatAsDouble alphanum) (pyFloatAsDouble tnum))
      else if name = "sweep_genic_selection" then
        Simulator_parse_sweep_genic_selection_model d reference_size
      else
        Except.error (PyErr.valueError "Unknown simulation model")

/-- `msp_get_model_name` (kernel, not under `src/`).  Modelled from the spec
(section 6): the installed model reports its canonical name string. -/
def msp_get_model_name : SimModel → String
  | SimModel.hudson => "hudson"
  | SimModel.smc => "smc"
  | SimModel.smcPrime => "smc_prime"
  | SimModel.dtwf => "dtwf"
  | SimModel.wfPed => "wf_ped"
  | SimModel.dirac _ _ => "dirac"
  | SimModel.beta _ _ => "beta"
  | SimModel.sweepGenicSelection _ _ _ _ _ => "sweep_genic_selection"

/-- The dictionary `Simulator_get_model` builds: always `name` and
`reference_size`; `psi`/`c` added for dirac, `alpha`/`truncation_point` for
beta, `locus` for sweep. -/
structure ModelReport where
  name : String
  reference_size : Rat
  psi : Option Rat
  c : Option Rat
  alpha : Option Rat
  truncation_point : Option Rat
  locus : Option Rat
deriving DecidableEq, Repr

/-- `Simulator_get_model(self)`: reports the installed model's name and
reference size, plus the model-specific parameters for dirac, beta and sweep
models. -/
def Simulator_get_model (m : SimulationModel) : ModelReport :=
  let base : ModelReport :=
    ⟨msp_get_model_name m.model, m.reference_size, none, none, none, none, none⟩
  match m.model with
  | SimModel.dirac psi c => { base with psi := some psi, c := some c }
  | SimModel.beta alpha t => { base with alpha := some alpha, truncation_point := some t }
  | SimModel.sweepGenicSelection position _ _ _ _ => { base with locus := some position }
  | _ => base

/-! ## C8: `msprime_log_likelihood_arg` -/

/-- What a call of `msprime_log_likelihood_arg` did: its Python-level result,
how many times it built a tree sequence from the tables
(`tsk_treeseq_init`), and the invocations of the likelihood computation
`msp_log_likelihood_arg(ts, recombination_rate, Ne)` with their arguments. -/
structure LogLikOutcome (TS : Type) where
  result : Except PyErr Rat
  init_calls : Nat
  lik_calls : List (TS × Rat × Rat)
deriving Repr

/-- `msprime_log_likelihood_arg(tables, Ne, recombination_rate)`: rejects a
negative `recombination_rate` with `ValueError` before touching the tables;
otherwise builds a tree sequence (`tsk_treeseq_init`, tables library, not
under `src/`), invokes the likelihood computation
(`msp_log_likelihood_arg`, `likelihood.c`, not under `src/`) and returns its
double result.  Both external routines are passed in as parameters, so the
theorem below holds for every behaviour of theirs. -/
def msprime_log_likelihood_arg {Tables TS : Type}
    (tsk_treeseq_init : Tables → Except Int TS)
    (msp_log_likelihood_arg : TS → Rat → Rat → Except Int Rat)
    (tables : Tables) (ne recombination_rate : Rat) : LogLikOutcome TS :=
  if recombination_rate < 0 then
    { result := Except.error (PyErr.valueError "recombination_rate must be >= 0"),
      init_calls := 0, lik_calls := [] }
  else
    match tsk_treeseq_init tables with
    | Except.error e =>
        { result := Except.error (PyErr.libraryError e), init_calls := 1, lik_calls := [] }
    | Except.ok ts =>
        match msp_log_likelihood_arg ts recombination_rate ne with
        | Except.error e =>
            { result := Except.error (PyErr.libraryError e), init_calls := 1,
              lik_calls := [(ts, recombination_rate, ne)] }
        | Except.ok v =>
            { result := Except.ok v, init_calls := 1,
              lik_calls := [(ts, recombination_rate, ne)] }

/-- **C5 (failing-input evidence).** Constructing a simulator with model name
`beta`, `alpha = 3` (outside `(1,2)`) and `truncation_point = 5` (outside
`(0,1]`) is NOT rejected: `Simulator_parse_simulation_model` performs no
range check on either parameter (the source marks the check as a TODO) and
installs the beta model with the out-of-range values, reporting success. -/
theorem beta_model_range_unchecked :
    Simulator_parse_simulation_model
        { name := some "beta", reference_size := PyField.num (PyNumber.float 1),
          psi := PyField.absent, c := PyField.absent,
          alpha := PyField.num (PyNumber.float 3),
          truncation_point := PyField.num (PyNumber.float 5),
          position := PyField.absent, start_frequency := PyField.absent,
          end_frequency := PyField.absent, dt := PyField.absent } =
      Except.ok ⟨SimModel.beta 3 5, 1⟩ := by
  rfl

/-- **C6.** For every model dictionary with name `dirac`, a positive numeric
`reference_size` and numeric `psi` and `c` entries: construction raises
`ValueError` iff `psi ≤ 0`, `psi ≥ 1`, or `c < 0` (with the psi check taking
precedence), and when `0 < psi < 1` and `c ≥ 0` the dirac model is installed
with exactly those parameter values and `get_model` reports name, reference
size, `psi` and `c` back unchanged. -/
theorem dirac_model_spec (d : ModelDict) (x y z : PyNumber)
    (hname : d.name = some "dirac")
    (href : d.reference_size = PyField.num x) (hrefpos : 0 < pyFloatAsDouble x)
    (hpsi : d.psi = PyField.num y) (hc : d.c = PyField.num z) :
    ((∃ m, Simulator_parse_simulation_model d = Except.ok m) ↔
      (0 < pyFloatAsDouble y ∧ pyFloatAsDouble y < 1 ∧ 0 ≤ pyFloatAsDouble z)) ∧
    (pyFloatAsDouble y ≤ 0 ∨ 1 ≤ pyFloatAsDouble y →
      Simulator_parse_simulation_model d =
        Except.error (PyErr.valueError "Must have 0 < psi < 1")) ∧
    (0 < pyFloatAsDouble y → pyFloatAsDouble y < 1 → pyFloatAsDouble z < 0 →
      Simulator_parse_simulation_model d =
        Except.error (PyErr.valueError "c >= 0")) ∧
    (0 < pyFloatAsDouble y → pyFloatAsDouble y < 1 → 0 ≤ pyFloatAsDouble z →
      Simulator_parse_simulation_model d =
        Except.ok ⟨SimModel.dirac (pyFloatAsDouble y) (pyFloatAsDouble z),
          pyFloatAsDouble x⟩ ∧
      Simulator_get_model
          ⟨SimModel.dirac (pyFloatAsDouble y) (pyFloatAsDouble z), pyFloatAsDouble x⟩ =
        { name := "dirac", reference_size := pyFloatAsDouble x,
          psi := some (pyFloatAsDouble y), c := some (pyFloatAsDouble z),
          alpha := none, truncation_point := none, locus := none }) := by
  have hrefle : ¬ pyFloatAsDouble x ≤ 0 := not_le.mpr hrefpos
  have hbase : Simulator_parse_simulation_model d =
      (if pyFloatAsDouble y ≤ 0 ∨ pyFloatAsDouble y ≥ 1 then
        Except.error (PyErr.valueError "Must have 0 < psi < 1")
      else if pyFloatAsDouble z < 0 then
        Except.error (PyErr.valueError "c >= 0")
      else
        Except.ok (msp_set_simulation_model_dirac (pyFloatAsDouble x)
          (pyFloatAsDouble y) (pyFloatAsDouble z))) := by
    unfold Simulator_parse_simulation_model
    rw [href, hname, hpsi, hc]
    simp [getDictNumber, hrefle, Except.instMonad, Except.bind]
  refine ⟨?_, ?_, ?_, ?_⟩
  · rw [hbase]
    by_cases h1 : pyFloatAsDouble y ≤ 0 ∨ pyFloatAsDouble y ≥ 1
    · rw [if_pos h1]
      constructor
      · rintro ⟨m, hm⟩
        exact absurd hm (by simp)
      · rintro ⟨ha, hb, _⟩
        rcases h1 with h | h
        · exact absurd ha (not_lt.mpr h)
        · exact absurd hb (not_lt.mpr h)
    · rw [if_neg h1]
      push_neg at h1
      by_cases h2 : pyFloatAsDouble z < 0
      · rw [if_pos h2]
        constructor
        · rintro ⟨m, hm⟩
          exact absurd hm (by simp)
        · rintro ⟨_, _, hcge⟩
          exact absurd hcge (not_le.mpr h2)
      · rw [if_neg h2]
        exact ⟨fun _ => ⟨h1.1, h1.2, not_lt.mp h2⟩, fun _ => ⟨_, rfl⟩⟩
  · intro h
    rw [hbase, if_pos (by rcases h with h | h; exact Or.inl h; exact Or.inr h)]
  · intro ha hb hcneg
    rw [hbase, if_neg (by push_neg; exact ⟨ha, hb⟩), if_pos hcneg]
  · intro ha hb hcge
    refine ⟨?_, ?_⟩
    · rw [hbase, if_neg (by push_neg; exact ⟨ha, hb⟩), if_neg (not_lt.mpr hcge)]
      rfl
    · rfl

/-- Witness for C6: `psi = 1/2`, `c = 2`, `reference_size = 1` give a
successfully installed dirac model. -/
theorem dirac_model_spec_witness :
    ∃ m, Simulator_parse_simulation_model
        { name := some "dirac", reference_size := PyField.num (PyNumber.int 1),
          psi := PyField.num (PyNumber.float (1 / 2)),
          c := PyField.num (PyNumber.int 2),
          alpha := PyField.absent, truncation_point := PyField.absent,
          position := PyField.absent, start_frequency := PyField.absent,
          end_frequency := PyField.absent, dt := PyField.absent } =
      Except.ok m :=
  ((dirac_model_spec _ (PyNumber.int 1) (PyNumber.float (1 / 2)) (PyNumber.int 2)
      rfl rfl (by norm_num [pyFloatAsDouble]) rfl rfl).1).mpr
    (by norm_num [pyFloatAsDouble])

/-- **C8.** `log_likelihood_arg` raises `ValueError` for every
`recombination_rate < 0` without building the tree sequence or invoking the
likelihood computation; for every `recombination_rate ≥ 0` the tree sequence
is built once, the likelihood computation is invoked exactly once with that
tree sequence, the rate and `Ne`, and its result (or error) is returned. -/
theorem log_likelihood_arg_spec {Tables TS : Type}
    (tsk_treeseq_init : Tables → Except Int TS)
    (msp_log_likelihood_arg_fn : TS → Rat → Rat → Except Int Rat)
    (tables : Tables) (ne rate : Rat) :
    (rate < 0 →
      msprime_log_likelihood_arg tsk_treeseq_init msp_log_likelihood_arg_fn
          tables ne rate =
        { result := Except.error (PyErr.valueError "recombination_rate must be >= 0"),
          init_calls := 0, lik_calls := [] }) ∧
    (0 ≤ rate →
      (msprime_log_likelihood_arg tsk_treeseq_init msp_log_likelihood_arg_fn
          tables ne rate).init_calls = 1 ∧
      ∀ ts, tsk_treeseq_init tables = Except.ok ts →
        (msprime_log_likelihood_arg tsk_treeseq_init msp_log_likelihood_arg_fn
            tables ne rate).lik_calls = [(ts, rate, ne)] ∧
        (msprime_log_likelihood_arg tsk_treeseq_init msp_log_likelihood_arg_fn
            tables ne rate).result =
          (match msp_log_likelihood_arg_fn ts rate ne with
            | Except.ok v => Except.ok v
            | Except.error e => Except.error (PyErr.libraryError e))) := by
  constructor
  · intro h
    unfold msprime_log_likelihood_arg
    rw [if_pos h]
  · intro h
    have hnneg : ¬ rate < 0 := not_lt.mpr h
    constructor
    · unfold msprime_log_likelihood_arg
      rw [if_neg hnneg]
      cases htables : tsk_treeseq_init tables with
      | error e => simp
      | ok ts => cases hlik : msp_log_likelihood_arg_fn ts rate ne <;> simp [hlik]
    · intro ts hts
      unfold msprime_log_likelihood_arg
      rw [if_neg hnneg, hts]
      cases hlik : msp_log_likelihood_arg_fn ts rate ne <;> simp [hlik]

/-- Witness for C8: with trivial external routines returning a tree sequence
and the likelihood value 7, a call at rate 2 invokes the computation and
returns 7. -/
theorem log_likelihood_arg_spec_witness :
    (msprime_log_likelihood_arg (fun _ : Unit => Except.ok ())
        (fun _ _ _ => Except.ok (7 : Rat)) () 1 2).result = Except.ok 7 :=
  ((log_likelihood_arg_spec (fun _ : Unit => Except.ok ())
      (fun _ _ _ => Except.ok (7 : Rat)) () 1 2).2 (by norm_num)).2 () rfl |>.2

/-! ## C7: `Simulator_init` and the pedigree -/

/-- A value fetched from a table-style dictionary by `get_table_dict_value`:
the key can be missing, bound to Python `None`, or bound to an array-like
object. -/
inductive PyCol (α : Type) where
  | missing
  | pynone
  | arr (x : α)
deriving DecidableEq, Repr

/-- `get_table_dict_value(dict, key, required=true)`: raises `ValueError`
when the key is missing and `TypeError` when it is bound to `None`. -/
def getTableDictValueRequired {α : Type} (v : PyCol α) (key : String) : Except PyErr α :=
  match v with
  | PyCol.missing => Except.error (PyErr.valueError (key ++ " not specified"))
  | PyCol.pynone => Except.error (PyErr.typeError (key ++ " is required"))
  | PyCol.arr x => Except.ok x

/-- `get_table_dict_value(dict, key, required=false)`: raises `ValueError`
when the key is missing; `None` is allowed and reported as `none`. -/
def getTableDictValueOptional {α : Type} (v : PyCol α) (key : String) :
    Except PyErr (Option α) :=
  match v with
  | PyCol.missing => Except.error (PyErr.valueError (key ++ " not specified"))
  | PyCol.pynone => Except.ok none
  | PyCol.arr x => Except.ok (some x)

/-- The length check of `table_read_column_array` when `check_num_rows` is
set: the column must have exactly `num_rows` entries. -/
def checkNumRows {α : Type} (col : List α) (num_rows : Nat) : Except PyErr Unit :=
  if col.length = num_rows then Except.ok ()
  else Except.error (PyErr.valueError "Input array dimensions must be equal.")

/-- The pedigree dictionary consumed by `Simulator_parse_pedigree`:
`individual` (int32), `parents` (int32, 2-D), `time` (float64) and
`is_sample` (uint32) columns. -/
structure PedigreeDict where
  individual : PyCol (List Int)
  parents : PyCol (List (List Int))
  time : PyCol (List Rat)
  is_sample : PyCol (List Nat)
deriving DecidableEq, Repr

/-- The `pedigree` argument of `Simulator_init`: when not `None` it is either
a dictionary or some other object (which is rejected). -/
inductive PedigreeInput where
  | notDict
  | dict (d : PedigreeDict)
deriving DecidableEq, Repr

/-- The pedigree as installed in the kernel by `msp_alloc_pedigree` /
`msp_set_pedigree` (kernel routines, not under `src/`; modelled from the
spec, section 6: `individual: int32[N]`, `parents: int32[N, ploidy]`,
`time: float64[N]`, `is_sample: uint32[N]`). -/
structure Pedigree where
  num_inds : Nat
  ploidy : Nat
  individual : List Int
  parents : List (List Int)
  time : List Rat
  is_sample : List Nat
deriving DecidableEq, Repr

/-- `Simulator_parse_pedigree(self, pedigree_dict)`: fetches the four
required columns, converts `parents` as a 2-D int32 array (whose shape gives
`num_inds` and `ploidy`), checks the three remaining columns against
`num_inds`, and installs the pedigree in the kernel. -/
def Simulator_parse_pedigree (pd : PedigreeDict) : Except PyErr Pedigree := do
  let inds ← getTableDictValueRequired pd.individual "individual"
  let parents ← getTableDictValueRequired pd.parents "parents"
  let times ← getTableDictValueRequired pd.time "time"
  let is_sample ← getTableDictValueRequired pd.is_sample "is_sample"
  match parents with
  | [] => Except.error (PyErr.valueError "object of too small depth for desired array")
  | r0 :: rs =>
      let ploidy := r0.length
      if (r0 :: rs).all (fun r => r.length = ploidy) then do
        let num_inds := (r0 :: rs).length
        let _ ← checkNumRows inds num_inds
        let _ ← checkNumRows times num_inds
        let _ ← checkNumRows is_sample num_inds
        Except.ok
          { num_inds := num_inds, ploidy := ploidy, individual := inds,
            parents := r0 :: rs, time := times, is_sample := is_sample }
      else
        Except.error (PyErr.valueError "setting an array element with a sequence")

/-- A population-configuration list entry: a dictionary with `initial_size`
and `growth_rate` entries, or some non-dictionary object. -/
inductive PopConfigEntry where
  | notDict
  | dict (initial_size growth_rate : PyField)
deriving DecidableEq, Repr

/-- `Simulator_parse_population_configuration`: each entry must be a
dictionary with numeric `initial_size` and `growth_rate`, handed to
`msp_set_population_configuration` in list order (kernel routine, not under
`src/`; modelled from the spec, section 6: an ordered list of
`(initial_size, growth_rate)` entries is installed). -/
def Simulator_parse_population_configuration :
    List PopConfigEntry → Except PyErr (List (Rat × Rat))
  | [] => Except.ok []
  | PopConfigEntry.notDict :: _ => Except.error (PyErr.typeError "not a dictionary")
  | PopConfigEntry.dict sz gr :: rest => do
      let sznum ← getDictNumber sz "initial_size"
      let grnum ← getDictNumber gr "growth_rate"
      (Simulator_parse_population_configuration rest).map
        (fun pcs => (pyFloatAsDouble sznum, pyFloatAsDouble grnum) :: pcs)

/-- A demographic-event dictionary as consumed by
`Simulator_parse_demographic_events`: the `type` string and the numeric
entries the event kinds read. -/
structure DemEventFields where
  time : PyField
  type : Option String
  initial_size : PyField
  growth_rate : PyField
  population : PyField
  migration_rate : PyField
  matrix_index : PyField
  source : PyField
  dest : PyField
  proportion : PyField
  strength : PyField
deriving DecidableEq, Repr

/-- A demographic-events list entry: a dictionary or some non-dictionary
object. -/
inductive DemEventInput where
  | notDict
  | dict (f : DemEventFields)
deriving DecidableEq, Repr

/-- A demographic event as queued in the kernel. -/
inductive DemEvent where
  | populationParametersChange (time : Rat) (population : Int)
      (initial_size growth_rate : Option Rat)
  | migrationRateChange (time : Rat) (matrix_index : Int) (rate : Rat)
  | massMigration (time : Rat) (source dest : Int) (proportion : Rat)
  | simpleBottleneck (time : Rat) (population : Int) (proportion : Rat)
  | instantaneousBottleneck (time : Rat) (population : Int) (strength : Rat)
  | censusEvent (time : Rat)
deriving DecidableEq, Repr

/-- The `PyDict_Contains` + `get_dict_number` pattern used for the optional
`initial_size` / `growth_rate` entries of a population-parameters-change
event: an absent key yields the `GSL_NAN` default (here `none`); a present
non-number raises. -/
def getOptionalDictNumber (v : PyField) (key : String) : Except PyErr (Option Rat) :=
  match v with
  | PyField.absent => Except.ok none
  | PyField.nonNum => Except.error (PyErr.typeError (key ++ " is not number"))
  | PyField.num x => Except.ok (some (pyFloatAsDouble x))

/-- `msp_add_population_parameters_change` (kernel, not under `src/`).
Modelled from the spec (section 6): queues the event. -/
def msp_add_population_parameters_change (time : Rat) (population : Int)
    (initial_size growth_rate : Option Rat) : Except Int DemEvent :=
  Except.ok (DemEvent.populationParametersChange time population initial_size growth_rate)

/-- `msp_add_migration_rate_change` (kernel, not under `src/`).  Modelled
from the spec (section 6): requires `migration_rate ≥ 0`. -/
def msp_add_migration_rate_change (time : Rat) (matrix_index : Int) (rate : Rat) :
    Except Int DemEvent :=
  if rate < 0 then Except.error (-1)
  else Except.ok (DemEvent.migrationRateChange time matrix_index rate)

/-- `msp_add_mass_migration` (kernel, not under `src/`).  Modelled from the
spec (section 6): requires `proportion ∈ [0,1]`. -/
def msp_add_mass_migration (time : Rat) (source dest : Int) (proportion : Rat) :
    Except Int DemEvent :=
  if proportion < 0 ∨ 1 < proportion then Except.error (-1)
  else Except.ok (DemEvent.massMigration time source dest proportion)

/-- `msp_add_simple_bottleneck` (kernel, not under `src/`).  Modelled from
the spec (section 6): requires `proportion ∈ [0,1]`. -/
def msp_add_simple_bottleneck (time : Rat) (population : Int) (proportion : Rat) :
    Except Int DemEvent :=
  if proportion < 0 ∨ 1 < proportion then Except.error (-1)
  else Except.ok (DemEvent.simpleBottleneck time population proportion)

/-- `msp_add_instantaneous_bottleneck` (kernel, not under `src/`).  Modelled
from the spec (section 6): requires `strength ≥ 0`. -/
def msp_add_instantaneous_bottleneck (time : Rat) (population : Int) (strength : Rat) :
    Except Int DemEvent :=
  if strength < 0 then Except.error (-1)
  else Except.ok (DemEvent.instantaneousBottleneck time population strength)

/-- `msp_add_census_event` (kernel, not under `src/`).  Modelled from the
spec (section 6): queues the event. -/
def msp_add_census_event (time : Rat) : Except Int DemEvent :=
  Except.ok (DemEvent.censusEvent time)

/-- Lifts a kernel add-event result into the wrapper error channel
(`handle_input_error` style, `MsprimeInputError` in section
`demographic_events`). -/
def liftAddEvent (r : Except Int DemEvent) : Except PyErr DemEvent :=
  match r with
  | Except.error code => Except.error (PyErr.inputError "demographic_events" code)
  | Except.ok ev => Except.ok ev

/-- `Simulator_parse_demographic_events(self, py_events)`: each entry must be
a dictionary with a numeric `time ≥ 0` and a recognised `type`; the fields of
the matched kind are read and the kernel add-event routine is called; the
first offending entry aborts. -/
def Simulator_parse_demographic_events :
    List DemEventInput → Except PyErr (List DemEvent)
  | [] => Except.ok []
  | DemEventInput.notDict :: _ => Except.error (PyErr.typeError "not a dictionary")
  | DemEventInput.dict f :: rest => do
      let timenum ← getDictNumber f.time "time"
      let time := pyFloatAsDouble timenum
      if time < 0 then
        Except.error (PyErr.valueError "negative times not valid")
      else
        match f.type with
        | none => Except.error (PyErr.valueError "type not specified")
        | some ty => do
            let ev ←
              if ty = "population_parameters_change" then do
                let initial_size ← getOptionalDictNumber f.initial_size "initial_size"
                let growth_rate ← getOptionalDictNumber f.growth_rate "growth_rate"
                let popnum ← getDictNumber f.population "population"
                liftAddEvent (msp_add_population_parameters_change time
                  (pyLongAsLong popnum) initial_size growth_rate)
              else if ty = "migration_rate_change" then do
                let ratenum ← getDictNumber f.migration_rate "migration_rate"
                let idxnum ← getDictNumber f.matrix_index "matrix_index"
                liftAddEvent (msp_add_migration_rate_change time
                  (pyLongAsLong idxnum) (pyFloatAsDouble ratenum))
              else if ty = "mass_migration" then do
                let propnum ← getDictNumber f.proportion "proportion"
                let srcnum ← getDictNumber f.source "source"
                let dstnum ← getDictNumber f.dest "dest"
                liftAddEvent (msp_add_mass_migration time (pyLongAsLong srcnum)
                  (pyLongAsLong dstnum) (pyFloatAsDouble propnum))
              else if ty = "simple_bottleneck" then do
                let propnum ← getDictNumber f.proportion "proportion"
                let popnum ← getDictNumber f.population "population"
                liftAddEvent (msp_add_simple_bottleneck time (pyLongAsLong popnum)
                  (pyFloatAsDouble propnum))
              else if ty = "instantaneous_bottleneck" then do
                let strnum ← getDictNumber f.strength "strength"
                let popnum ← getDictNumber f.population "population"
                liftAddEvent (msp_add_instantaneous_bottleneck time
                  (pyLongAsLong popnum) (pyFloatAsDouble strnum))
              else if ty = "census_event" then
                liftAddEvent (msp_add_census_event time)
              else
                Except.error (PyErr.valueError "Unknown demographic event type")
            (Simulator_parse_demographic_events rest).map (fun des => ev :: des)

/-- The keyword arguments of `Simulator_init`, with the C defaults. -/
structure SimInput where
  samples : List SampleEntry
  population_configuration : Option (List PopConfigEntry) := none
  pedigree : Option PedigreeInput := none
  migration_matrix : Option (List PyVal) := none
  demographic_events : Option (List DemEventInput) := none
  model : Option ModelDict := none
  avl_node_block_size : Nat := 10
  segment_block_size : Nat := 10
  node_mapping_block_size : Nat := 10
  store_migrations : Bool := false
  start_time : Rat := -1
  store_full_arg : Bool := false
  num_labels : Nat := 1
  gene_conversion_rate : Rat := 0
  gene_conversion_track_length : Rat := 1
deriving DecidableEq, Repr

/-- The kernel simulator state assembled by `Simulator_init` (the slice of
`msp_t` that the constructor configures). -/
structure SimState where
  samples : List (Int × Rat)
  num_samples : Nat
  model : SimulationModel
  start_time : Option Rat
  store_migrations : Bool
  avl_node_block_size : Nat
  segment_block_size : Nat
  node_mapping_block_size : Nat
  gene_conversion_rate : Rat
  gene_conversion_track_length : Rat
  num_populations : Nat
  num_labels : Nat
  pedigree : Option Pedigree
  population_configuration : List (Rat × Rat)
  migration_matrix : List Rat
  demographic_events : List DemEvent
  store_full_arg : Bool
  initialised : Bool
deriving DecidableEq, Repr

/-- The simulation model installed by `msp_alloc` before any explicit model
is parsed (kernel, not under `src/`).  Modelled from the spec: the base
continuous-time model is `hudson`; the concrete default reference size is
immaterial to every claim. -/
def msp_alloc_default_model : SimulationModel :=
  ⟨SimModel.hudson, 1 / 4⟩

/-- The population count used by `Simulator_init`: the length of the
population-configuration list (rejected when empty), defaulting to 1. -/
def Simulator_init_num_populations (inp : SimInput) : Except PyErr Nat :=
  match inp.population_configuration with
  | none => Except.ok 1
  | some cfg =>
      if cfg.length = 0 then
        Except.error (PyErr.valueError "Empty population configuration")
      else
        Except.ok cfg.length

/-- The model-installation step of `Simulator_init`: the default model of
`msp_alloc` when no model dictionary is supplied, otherwise
`Simulator_parse_simulation_model`. -/
def Simulator_init_model (inp : SimInput) : Except PyErr SimulationModel :=
  match inp.model with
  | none => Except.ok msp_alloc_default_model
  | some md => Simulator_parse_simulation_model md

/-- `Simulator_init`, first part: everything the constructor does before the
pedigree block — population-configuration emptiness check, `parse_samples`,
`msp_alloc` (default model), optional `Simulator_parse_simulation_model`,
`msp_set_start_time` (only when `start_time ≥ 0`), the block-size /
store-migrations / gene-conversion setters and `msp_set_dimensions`. -/
def Simulator_init_before_pedigree (inp : SimInput) : Except PyErr SimState := do
  let num_populations ← Simulator_init_num_populations inp
  let samples ← parse_samples (Int.ofNat num_populations) inp.samples
  let model ← Simulator_init_model inp
  Except.ok
    { samples := samples, num_samples := samples.length, model := model,
      start_time := if inp.start_time ≥ 0 then some inp.start_time else none,
      store_migrations := inp.store_migrations,
      avl_node_block_size := inp.avl_node_block_size,
      segment_block_size := inp.segment_block_size,
      node_mapping_block_size := inp.node_mapping_block_size,
      gene_conversion_rate := inp.gene_conversion_rate,
      gene_conversion_track_length := inp.gene_conversion_track_length,
      num_populations := num_populations, num_labels := inp.num_labels,
      pedigree := none, population_configuration := [],
      migration_matrix := [], demographic_events := [],
      store_full_arg := false, initialised := false }

/-- `Simulator_init`, pedigree block: a non-`None` pedigree must be a
dictionary and is rejected with `ValueError` unless the installed model type
is `MSP_MODEL_WF_PED`; only under the Wright-Fisher pedigree model is it
parsed and installed. -/
def Simulator_init_pedigree_step (inp : SimInput) (s : SimState) : Except PyErr SimState :=
  match inp.pedigree with
  | none => Except.ok s
  | some PedigreeInput.notDict => Except.error (PyErr.typeError "Pedigree must be a dictionary")
  | some (PedigreeInput.dict pd) =>
      if s.model.model = SimModel.wfPed then
        (Simulator_parse_pedigree pd).map (fun p => { s with pedigree := some p })
      else
        Except.error (PyErr.valueError
          "A pedigree can only be supplied under the msprime.WrightFisherPedigree simulation model")

/-- The population-configuration / migration-matrix block of
`Simulator_init`: each of the two arguments requires the other's presence,
and both are parsed in source order. -/
def Simulator_init_popconfig_migration (inp : SimInput) (num_populations : Nat) :
    Except PyErr (List (Rat × Rat) × List Rat) :=
  match inp.population_configuration with
  | some cfg => do
      let pcs ← Simulator_parse_population_configuration cfg
      match inp.migration_matrix with
      | none =>
          Except.error (PyErr.valueError
            "A migration matrix must be provided when a non-default population configuration is used.")
      | some mm =>
          (Simulator_parse_migration_matrix num_populations mm).map
            (fun m => (pcs, m))
  | none =>
      match inp.migration_matrix with
      | none => Except.ok ([], [])
      | some _ =>
          Except.error (PyErr.valueError
            "Cannot supply migration_matrix without population_configuration.")

/-- The demographic-events block of `Simulator_init`. -/
def Simulator_init_demography (inp : SimInput) : Except PyErr (List DemEvent) :=
  match inp.demographic_events with
  | none => Except.ok []
  | some evs => Simulator_parse_demographic_events evs

/-- `Simulator_init`, last part: population configuration plus migration
matrix (each requiring the other's presence rule), demographic events,
`msp_set_store_full_arg` and `msp_initialise`. -/
def Simulator_init_after_pedigree (inp : SimInput) (s : SimState) : Except PyErr SimState := do
  let pm ← Simulator_init_popconfig_migration inp s.num_populations
  let des ← Simulator_init_demography inp
  Except.ok
    { s with
      population_configuration := pm.1
      migration_matrix := pm.2
      demographic_events := des
      store_full_arg := inp.store_full_arg
      initialised := true }

/-- `Simulator_init(self, args, kwds)`: the three parts in source order. -/
def Simulator_init (inp : SimInput) : Except PyErr SimState := do
  let s ← Simulator_init_before_pedigree inp
  let s2 ← Simulator_init_pedigree_step inp s
  Simulator_init_after_pedigree inp s2

/-- `Except` bind on a success (helper). -/
theorem except_bind_ok {ε α β : Type} (a : α) (f : α → Except ε β) :
    (Except.ok a >>= f : Except ε β) = f a := rfl

/-- `Except` bind on a failure (helper). -/
theorem except_bind_error {ε α β : Type} (e : ε) (f : α → Except ε β) :
    (Except.error e >>= f : Except ε β) = Except.error e := rfl

/-- The constructor stage before the pedigree block leaves no pedigree
installed (helper). -/
theorem Simulator_init_before_pedigree_pedigree_none (inp : SimInput) (s : SimState)
    (h : Simulator_init_before_pedigree inp = Except.ok s) : s.pedigree = none := by
  unfold Simulator_init_before_pedigree at h
  cases hnp : Simulator_init_num_populations inp with
  | error e => rw [hnp, except_bind_error] at h; exact absurd h (by simp)
  | ok np =>
      rw [hnp, except_bind_ok] at h
      cases hs : parse_samples (Int.ofNat np) inp.samples with
      | error e => rw [hs, except_bind_error] at h; exact absurd h (by simp)
      | ok samples =>
          rw [hs, except_bind_ok] at h
          cases hm : Simulator_init_model inp with
          | error e => rw [hm, except_bind_error] at h; exact absurd h (by simp)
          | ok model =>
              rw [hm, except_bind_ok] at h
              cases h
              rfl

/-- The constructor stage after the pedigree block touches neither the
installed model nor the installed pedigree (helper). -/
theorem Simulator_init_after_pedigree_preserves (inp : SimInput) (s s2 : SimState)
    (h : Simulator_init_after_pedigree inp s = Except.ok s2) :
    s2.model = s.model ∧ s2.pedigree = s.pedigree := by
  unfold Simulator_init_after_pedigree at h
  cases hpm : Simulator_init_popconfig_migration inp s.num_populations with
  | error e => rw [hpm, except_bind_error] at h; exact absurd h (by simp)
  | ok pm =>
      rw [hpm, except_bind_ok] at h
      cases hdes : Simulator_init_demography inp with
      | error e => rw [hdes, except_bind_error] at h; exact absurd h (by simp)
      | ok des =>
          rw [hdes, except_bind_ok] at h
          cases h
          exact ⟨rfl, rfl⟩

/-- Case analysis of a successful pedigree block: either no pedigree was
supplied and the state is unchanged, or the model is the Wright-Fisher
pedigree model, the supplied dictionary parsed, and the pedigree was
installed (helper). -/
theorem Simulator_init_pedigree_step_cases (inp : SimInput) (s s1 : SimState)
    (h : Simulator_init_pedigree_step inp s = Except.ok s1) :
    (inp.pedigree = none ∧ s1 = s) ∨
    (∃ pd p, inp.pedigree = some (PedigreeInput.dict pd) ∧
      s.model.model = SimModel.wfPed ∧ Simulator_parse_pedigree pd = Except.ok p ∧
      s1 = { s with pedigree := some p }) := by
  unfold Simulator_init_pedigree_step at h
  split at h
  · rename_i hped
    cases h
    exact Or.inl ⟨hped, rfl⟩
  · exact absurd h (by simp)
  · rename_i pd hped
    by_cases hwf : s.model.model = SimModel.wfPed
    · rw [if_pos hwf] at h
      rcases (except_map_eq_ok _ _ _).mp h with ⟨p, hp, hmap⟩
      exact Or.inr ⟨pd, p, hped, hwf, hp, hmap.symm⟩
    · rw [if_neg hwf] at h
      exact absurd h (by simp)

/-- **C7.** Supplying a pedigree to the simulator constructor fails with an
error whenever the selected simulation model is not the Wright-Fisher
pedigree model (`wf_ped`): if the constructor reaches the pedigree block with
a non-`wf_ped` model and a pedigree argument, construction fails — with the
dedicated `ValueError` when the pedigree is a dictionary; and a pedigree is
only parsed and installed when the model type is `wf_ped`: every successful
construction has a pedigree installed exactly when one was supplied, and only
under the `wf_ped` model. -/
theorem Simulator_init_pedigree_spec (inp : SimInput) :
    (∀ s, Simulator_init_before_pedigree inp = Except.ok s →
      inp.pedigree ≠ none → s.model.model ≠ SimModel.wfPed →
      ∃ e, Simulator_init inp = Except.error e) ∧
    (∀ s pd, Simulator_init_before_pedigree inp = Except.ok s →
      inp.pedigree = some (PedigreeInput.dict pd) →
      s.model.model ≠ SimModel.wfPed →
      Simulator_init inp = Except.error (PyErr.valueError
        "A pedigree can only be supplied under the msprime.WrightFisherPedigree simulation model")) ∧
    (∀ s2, Simulator_init inp = Except.ok s2 →
      (s2.pedigree ≠ none → s2.model.model = SimModel.wfPed) ∧
      (inp.pedigree = none → s2.pedigree = none) ∧
      (inp.pedigree ≠ none → s2.pedigree ≠ none ∧ s2.model.model = SimModel.wfPed)) := by
  have key : ∀ s pd, Simulator_init_before_pedigree inp = Except.ok s →
      inp.pedigree = some (PedigreeInput.dict pd) →
      s.model.model ≠ SimModel.wfPed →
      Simulator_init inp = Except.error (PyErr.valueError
        "A pedigree can only be supplied under the msprime.WrightFisherPedigree simulation model") := by
    intro s pd hbef hped hwf
    unfold Simulator_init
    rw [hbef, except_bind_ok]
    have hstep : Simulator_init_pedigree_step inp s = Except.error (PyErr.valueError
        "A pedigree can only be supplied under the msprime.WrightFisherPedigree simulation model") := by
      unfold Simulator_init_pedigree_step
      rw [hped]
      simp [hwf]
    rw [hstep, except_bind_error]
  refine ⟨?_, key, ?_⟩
  · intro s hbef hped hwf
    cases hp : inp.pedigree with
    | none => exact absurd hp hped
    | some pi =>
        cases pi with
        | notDict =>
            refine ⟨PyErr.typeError "Pedigree must be a dictionary", ?_⟩
            unfold Simulator_init
            rw [hbef, except_bind_ok]
            have hstep : Simulator_init_pedigree_step inp s =
                Except.error (PyErr.typeError "Pedigree must be a dictionary") := by
              unfold Simulator_init_pedigree_step
              rw [hp]
            rw [hstep, except_bind_error]

        | dict pd => exact ⟨_, key s pd hbef hp hwf⟩
  · intro s2 hinit
    unfold Simulator_init at hinit
    cases hbef : Simulator_init_before_pedigree inp with
    | error e => rw [hbef, except_bind_error] at hinit; exact absurd hinit (by simp)
    | ok s =>
        rw [hbef, except_bind_ok] at hinit
        cases hstep : Simulator_init_pedigree_step inp s with
        | error e => rw [hstep, except_bind_error] at hinit; exact absurd hinit (by simp)
        | ok s1 =>
            rw [hstep, except_bind_ok] at hinit
            have hpres := Simulator_init_after_pedigree_preserves inp s1 s2 hinit
            have hnone := Simulator_init_before_pedigree_pedigree_none inp s hbef
            rcases Simulator_init_pedigree_step_cases inp s s1 hstep with
              ⟨hpednone, rfl⟩ | ⟨pd, p, hped, hwf, hp, rfl⟩
            · refine ⟨?_, fun _ => ?_, fun hne => absurd hpednone hne⟩
              · intro hne
                rw [hpres.2, hnone] at hne
                exact absurd rfl hne
              · rw [hpres.2, hnone]
            · refine ⟨fun _ => ?_, fun h0 => ?_, fun _ => ⟨?_, ?_⟩⟩
              · rw [hpres.1]
                exact hwf
              · rw [hped] at h0
                exact absurd h0 (by simp)
              · rw [hpres.2]
                simp
              · rw [hpres.1]
                exact hwf

/-- A constructor input carrying a pedigree while leaving the model at the
default (hudson): the witness input for C7. -/
def pedigree_witness_input : SimInput :=
  { samples := [SampleEntry.tuple [PyVal.num (PyNumber.int 0), PyVal.num (PyNumber.int 0)]],
    pedigree := some (PedigreeInput.dict
      { individual := PyCol.arr [0, 1],
        parents := PyCol.arr [[-1, -1], [-1, -1]],
        time := PyCol.arr [0, 1],
        is_sample := PyCol.arr [1, 0] }) }

/-- Witness for C7: with the default hudson model, supplying a pedigree
dictionary makes construction fail with the dedicated `ValueError`. -/
theorem Simulator_init_pedigree_spec_witness :
    Simulator_init pedigree_witness_input = Except.error (PyErr.valueError
      "A pedigree can only be supplied under the msprime.WrightFisherPedigree simulation model") :=
  (Simulator_init_pedigree_spec pedigree_witness_input).2.1 _ _ rfl rfl (by decide)

/-! ## C2: the table-collection dictionary encoding

Column conventions: `uint32` columns are `List Nat`, `int32` and `int8`
columns are `List Int`, and `float64` columns — which the module only ever
copies, never interprets — are `List Nat` of 64-bit patterns.  The
`sequence_length` scalar goes through `PyFloat_AsDouble` / `Py_BuildValue`
and is a `Rat`. -/

/-- `tsk_individual_table_t` (column arrays). -/
structure IndividualTable where
  flags : List Nat
  location : List Nat
  location_offset : List Nat
  metadata : List Int
  metadata_offset : List Nat
deriving DecidableEq, Repr

/-- `tsk_node_table_t` (column arrays). -/
structure NodeTable where
  flags : List Nat
  time : List Nat
  population : List Int
  individual : List Int
  metadata : List Int
  metadata_offset : List Nat
deriving DecidableEq, Repr

/-- `tsk_edge_table_t` (column arrays). -/
structure EdgeTable where
  left : List Nat
  right : List Nat
  parent : List Int
  child : List Int
deriving DecidableEq, Repr

/-- `tsk_migration_table_t` (column arrays). -/
structure MigrationTable where
  left : List Nat
  right : List Nat
  node : List Int
  source : List Int
  dest : List Int
  time : List Nat
deriving DecidableEq, Repr

/-- `tsk_site_table_t` (column arrays). -/
structure SiteTable where
  position : List Nat
  ancestral_state : List Int
  ancestral_state_offset : List Nat
  metadata : List Int
  metadata_offset : List Nat
deriving DecidableEq, Repr

/-- `tsk_mutation_table_t` (column arrays). -/
structure MutationTable where
  site : List Int
  node : List Int
  parent : List Int
  derived_state : List Int
  derived_state_offset : List Nat
  metadata : List Int
  metadata_offset : List Nat
deriving DecidableEq, Repr

/-- `tsk_population_table_t` (column arrays). -/
structure PopulationTable where
  metadata : List Int
  metadata_offset : List Nat
deriving DecidableEq, Repr

/-- `tsk_provenance_table_t` (column arrays). -/
structure ProvenanceTable where
  timestamp : List Int
  timestamp_offset : List Nat
  record : List Int
  record_offset : List Nat
deriving DecidableEq, Repr

/-- `tsk_table_collection_t`: the eight tables plus `sequence_length`. -/
structure TableCollection where
  sequence_length : Rat
  individuals : IndividualTable
  nodes : NodeTable
  edges : EdgeTable
  migrations : MigrationTable
  sites : SiteTable
  mutations : MutationTable
  populations : PopulationTable
  provenances : ProvenanceTable
deriving DecidableEq, Repr

/-- The dictionary encoding of an individual table (each key's value as the
parser can see it). -/
structure IndividualTableDict where
  flags : PyCol (List Nat)
  location : PyCol (List Nat)
  location_offset : PyCol (List Nat)
  metadata : PyCol (List Int)
  metadata_offset : PyCol (List Nat)
deriving DecidableEq, Repr

/-- The dictionary encoding of a node table. -/
structure NodeTableDict where
  flags : PyCol (List Nat)
  time : PyCol (List Nat)
  population : PyCol (List Int)
  individual : PyCol (List Int)
  metadata : PyCol (List Int)
  metadata_offset : PyCol (List Nat)
deriving DecidableEq, Repr

/-- The dictionary encoding of an edge table. -/
structure EdgeTableDict where
  left : PyCol (List Nat)
  right : PyCol (List Nat)
  parent : PyCol (List Int)
  child : PyCol (List Int)
deriving DecidableEq, Repr

/-- The dictionary encoding of a migration table. -/
structure MigrationTableDict where
  left : PyCol (List Nat)
  right : PyCol (List Nat)
  node : PyCol (List Int)
  source : PyCol (List Int)
  dest : PyCol (List Int)
  time : PyCol (List Nat)
deriving DecidableEq, Repr

/-- The dictionary encoding of a site table. -/
structure SiteTableDict where
  position : PyCol (List Nat)
  ancestral_state : PyCol (List Int)
  ancestral_state_offset : PyCol (List Nat)
  metadata : PyCol (List Int)
  metadata_offset : PyCol (List Nat)
deriving DecidableEq, Repr

/-- The dictionary encoding of a mutation table. -/
structure MutationTableDict where
  site : PyCol (List Int)
  node : PyCol (List Int)
  parent : PyCol (List Int)
  derived_state : PyCol (List Int)
  derived_state_offset : PyCol (List Nat)
  metadata : PyCol (List Int)
  metadata_offset : PyCol (List Nat)
deriving DecidableEq, Repr

/-- The dictionary encoding of a population table. -/
structure PopulationTableDict where
  metadata : PyCol (List Int)
  metadata_offset : PyCol (List Nat)
deriving DecidableEq, Repr

/-- The dictionary encoding of a provenance table. -/
structure ProvenanceTableDict where
  timestamp : PyCol (List Int)
  timestamp_offset : PyCol (List Nat)
  record : PyCol (List Int)
  record_offset : PyCol (List Nat)
deriving DecidableEq, Repr

/-- A table entry of the top-level dictionary: missing, `None`, a non-dict
object, or a table dictionary. -/
inductive PyDictVal (α : Type) where
  | missing
  | pynone
  | notDict
  | dict (d : α)
deriving DecidableEq, Repr

/-- The `get_table_dict_value(required=true)` + `PyDict_Check` pattern of
`parse_table_collection_dict` for one table entry. -/
def getTableSubDict {α : Type} (v : PyDictVal α) (key : String) : Except PyErr α :=
  match v with
  | PyDictVal.missing => Except.error (PyErr.valueError (key ++ " not specified"))
  | PyDictVal.pynone => Except.error (PyErr.typeError (key ++ " is required"))
  | PyDictVal.notDict => Except.error (PyErr.typeError "not a dictionary")
  | PyDictVal.dict d => Except.ok d

/-- The top-level dictionary encoding of a table collection. -/
structure TableCollectionDict where
  sequence_length : PyField
  individuals : PyDictVal IndividualTableDict
  nodes : PyDictVal NodeTableDict
  edges : PyDictVal EdgeTableDict
  migrations : PyDictVal MigrationTableDict
  sites : PyDictVal SiteTableDict
  mutations : PyDictVal MutationTableDict
  populations : PyDictVal PopulationTableDict
  provenances : PyDictVal ProvenanceTableDict
deriving DecidableEq, Repr

/-- `write_table_arrays`, individuals block: every column is exported as an
array view of the table's memory (flags of length `num_rows`, packed data of
its data length, offsets of length `num_rows + 1`). -/
def IndividualTable.asdict (t : IndividualTable) : IndividualTableDict :=
  { flags := PyCol.arr t.flags, location := PyCol.arr t.location,
    location_offset := PyCol.arr t.location_offset,
    metadata := PyCol.arr t.metadata, metadata_offset := PyCol.arr t.metadata_offset }

/-- `write_table_arrays`, nodes block. -/
def NodeTable.asdict (t : NodeTable) : NodeTableDict :=
  { flags := PyCol.arr t.flags, time := PyCol.arr t.time,
    population := PyCol.arr t.population, individual := PyCol.arr t.individual,
    metadata := PyCol.arr t.metadata, metadata_offset := PyCol.arr t.metadata_offset }

/-- `write_table_arrays`, edges block. -/
def EdgeTable.asdict (t : EdgeTable) : EdgeTableDict :=
  { left := PyCol.arr t.left, right := PyCol.arr t.right,
    parent := PyCol.arr t.parent, child := PyCol.arr t.child }

/-- `write_table_arrays`, migrations block. -/
def MigrationTable.asdict (t : MigrationTable) : MigrationTableDict :=
  { left := PyCol.arr t.left, right := PyCol.arr t.right, node := PyCol.arr t.node,
    source := PyCol.arr t.source, dest := PyCol.arr t.dest, time := PyCol.arr t.time }

/-- `write_table_arrays`, sites block. -/
def SiteTable.asdict (t : SiteTable) : SiteTableDict :=
  { position := PyCol.arr t.position, ancestral_state := PyCol.arr t.ancestral_state,
    ancestral_state_offset := PyCol.arr t.ancestral_state_offset,
    metadata := PyCol.arr t.metadata, metadata_offset := PyCol.arr t.metadata_offset }

/-- `write_table_arrays`, mutations block. -/
def MutationTable.asdict (t : MutationTable) : MutationTableDict :=
  { site := PyCol.arr t.site, node := PyCol.arr t.node, parent := PyCol.arr t.parent,
    derived_state := PyCol.arr t.derived_state,
    derived_state_offset := PyCol.arr t.derived_state_offset,
    metadata := PyCol.arr t.metadata, metadata_offset := PyCol.arr t.metadata_offset }

/-- `write_table_arrays`, populations block. -/
def PopulationTable.asdict (t : PopulationTable) : PopulationTableDict :=
  { metadata := PyCol.arr t.metadata, metadata_offset := PyCol.arr t.metadata_offset }

/-- `write_table_arrays`, provenances block. -/
def ProvenanceTable.asdict (t : ProvenanceTable) : ProvenanceTableDict :=
  { timestamp := PyCol.arr t.timestamp, timestamp_offset := PyCol.arr t.timestamp_offset,
    record := PyCol.arr t.record, record_offset := PyCol.arr t.record_offset }

/-- `dump_tables_dict` (hence `LightweightTableCollection_asdict`): the
`sequence_length` scalar plus the eight table dictionaries of
`write_table_arrays`. -/
def dump_tables_dict (t : TableCollection) : TableCollectionDict :=
  { sequence_length := PyField.num (PyNumber.float t.sequence_length),
    individuals := PyDictVal.dict t.individuals.asdict,
    nodes := PyDictVal.dict t.nodes.asdict,
    edges := PyDictVal.dict t.edges.asdict,
    migrations := PyDictVal.dict t.migrations.asdict,
    sites := PyDictVal.dict t.sites.asdict,
    mutations := PyDictVal.dict t.mutations.asdict,
    populations := PyDictVal.dict t.populations.asdict,
    provenances := PyDictVal.dict t.provenances.asdict }

/-- `table_read_offset_array` with `check_num_rows` set: the offset column
must have `num_rows + 1` entries and its last entry must equal the packed
data length. -/
def checkOffsets (offsets : List Nat) (num_rows : Nat) (data_len : Nat) :
    Except PyErr Unit :=
  if offsets.length = num_rows + 1 then
    if offsets.getLast? = some data_len then Except.ok ()
    else Except.error (PyErr.valueError "Bad offset column encoding")
  else
    Except.error (PyErr.valueError "offset columns must have n + 1 rows.")

/-- `table_read_offset_array` with `check_num_rows` unset: the offset column
must be non-empty, its last entry must equal the packed data length, and the
row count it determines (its length minus one) is returned — overwriting the
caller's current `num_rows`. -/
def freshOffsets (offsets : List Nat) (data_len : Nat) : Except PyErr Nat :=
  if offsets.length = 0 then
    Except.error (PyErr.valueError "Offset arrays must have at least one element")
  else if offsets.getLast? = some data_len then
    Except.ok (offsets.length - 1)
  else
    Except.error (PyErr.valueError "Bad offset column encoding")

/-- The two-sided presence check for a packed column and its offsets
(`(metadata_input == Py_None) != (metadata_offset_input == Py_None)` raises;
both absent yields nothing, both present yields the pair). -/
def pairedColumns {α : Type} (dat : Option (List α)) (off : Option (List Nat))
    (msg : String) : Except PyErr (Option (List α × List Nat)) :=
  match dat, off with
  | none, none => Except.ok none
  | some d, some o => Except.ok (some (d, o))
  | _, _ => Except.error (PyErr.typeError msg)

/-- Whether a list of offsets is non-decreasing (helper for the
tables-library offset contract). -/
def nondecreasing : List Nat → Bool
  | [] => true
  | [_] => true
  | a :: b :: t => decide (a ≤ b) && nondecreasing (b :: t)

/-- A tables-library failure code for a malformed offset column (tables
library, not under `src/`; modelled from the spec, section 6 — the concrete
value is immaterial). -/
def TSK_ERR_BAD_OFFSET : Int := -1

/-- The tables-library offset contract (spec, section 6): `offset[0] = 0` and
the column is monotone non-decreasing (the length and final-entry conditions
having been checked by the wrapper already). -/
def tskCheckOffsets (offsets : List Nat) : Bool :=
  (offsets.head? == some 0) && nondecreasing offsets

/-- `tsk_*_table_append_columns` on an optional packed column (tables
library, not under `src/`; modelled from the spec, section 6): an absent
column becomes empty data with `num_rows + 1` zero offsets; a present column
is checked against the offset contract and copied. -/
def tskPackedColumns {α : Type} (num_rows : Nat)
    (packed : Option (List α × List Nat)) : Except PyErr (List α × List Nat) :=
  match packed with
  | none => Except.ok ([], List.replicate (num_rows + 1) 0)
  | some (d, o) =>
      if tskCheckOffsets o then Except.ok (d, o)
      else Except.error (PyErr.libraryError TSK_ERR_BAD_OFFSET)

/-- `tsk_*_table_append_columns` on a required packed column (tables
library, not under `src/`; modelled from the spec, section 6): offset
contract check, then copy. -/
def tskRequiredPacked {α : Type} (d : List α) (o : List Nat) :
    Except PyErr (List α × List Nat) :=
  if tskCheckOffsets o then Except.ok (d, o)
  else Except.error (PyErr.libraryError TSK_ERR_BAD_OFFSET)

/-- `parse_individual_table_dict` (with `clear_table` set, as `fromdict`
calls it): fetches the five entries, takes `num_rows` from `flags`, enforces
the paired-presence rule and the offset-column shape for `location` and
`metadata`, and appends the columns to the cleared table (absent optional
columns becoming empty, with zero offsets). -/
def parse_individual_table_dict (d : IndividualTableDict) :
    Except PyErr IndividualTable := do
  let flags_input ← getTableDictValueRequired d.flags "flags"
  let location_input ← getTableDictValueOptional d.location "location"
  let location_offset_input ← getTableDictValueOptional d.location_offset "location_offset"
  let metadata_input ← getTableDictValueOptional d.metadata "metadata"
  let metadata_offset_input ← getTableDictValueOptional d.metadata_offset "metadata_offset"
  let num_rows := flags_input.length
  let loc ← pairedColumns location_input location_offset_input
    "location and location_offset must be specified together"
  let _ ←
    match loc with
    | none => Except.ok ()
    | some lo => checkOffsets lo.2 num_rows lo.1.length
  let md ← pairedColumns metadata_input metadata_offset_input
    "metadata and metadata_offset must be specified together"
  let _ ←
    match md with
    | none => Except.ok ()
    | some mo => checkOffsets mo.2 num_rows mo.1.length
  let locv ← tskPackedColumns num_rows loc
  let mdv ← tskPackedColumns num_rows md
  Except.ok
    { flags := flags_input, location := locv.1, location_offset := locv.2,
      metadata := mdv.1, metadata_offset := mdv.2 }

/-- `parse_node_table_dict` (with `clear_table` set): `num_rows` from
`flags`; `time` must match it; optional `population` and `individual`
columns must match it when present (absent columns are filled with
`TSK_NULL = -1` by the append); `metadata` follows the paired rule. -/
def parse_node_table_dict (d : NodeTableDict) : Except PyErr NodeTable := do
  let flags_input ← getTableDictValueRequired d.flags "flags"
  let time_input ← getTableDictValueRequired d.time "time"
  let population_input ← getTableDictValueOptional d.population "population"
  let individual_input ← getTableDictValueOptional d.individual "individual"
  let metadata_input ← getTableDictValueOptional d.metadata "metadata"
  let metadata_offset_input ← getTableDictValueOptional d.metadata_offset "metadata_offset"
  let num_rows := flags_input.length
  let _ ← checkNumRows time_input num_rows
  let _ ←
    match population_input with
    | none => Except.ok ()
    | some p => checkNumRows p num_rows
  let _ ←
    match individual_input with
    | none => Except.ok ()
    | some i => checkNumRows i num_rows
  let md ← pairedColumns metadata_input metadata_offset_input
    "metadata and metadata_offset must be specified together"
  let _ ←
    match md with
    | none => Except.ok ()
    | some mo => checkOffsets mo.2 num_rows mo.1.length
  let mdv ← tskPackedColumns num_rows md
  Except.ok
    { flags := flags_input, time := time_input,
      population := population_input.getD (List.replicate num_rows (-1)),
      individual := individual_input.getD (List.replicate num_rows (-1)),
      metadata := mdv.1, metadata_offset := mdv.2 }

/-- `parse_edge_table_dict` (with `clear_table` set): `num_rows` from `left`;
the three remaining columns must match it. -/
def parse_edge_table_dict (d : EdgeTableDict) : Except PyErr EdgeTable := do
  let left_input ← getTableDictValueRequired d.left "left"
  let right_input ← getTableDictValueRequired d.right "right"
  let parent_input ← getTableDictValueRequired d.parent "parent"
  let child_input ← getTableDictValueRequired d.child "child"
  let num_rows := left_input.length
  let _ ← checkNumRows right_input num_rows
  let _ ← checkNumRows parent_input num_rows
  let _ ← checkNumRows child_input num_rows
  Except.ok
    { left := left_input, right := right_input, parent := parent_input,
      child := child_input }

/-- `parse_migration_table_dict` (with `clear_table` set): `num_rows` from
`left`; the five remaining columns must match it. -/
def parse_migration_table_dict (d : MigrationTableDict) : Except PyErr MigrationTable := do
  let left_input ← getTableDictValueRequired d.left "left"
  let right_input ← getTableDictValueRequired d.right "right"
  let node_input ← getTableDictValueRequired d.node "node"
  let source_input ← getTableDictValueRequired d.source "source"
  let dest_input ← getTableDictValueRequired d.dest "dest"
  let time_input ← getTableDictValueRequired d.time "time"
  let num_rows := left_input.length
  let _ ← checkNumRows right_input num_rows
  let _ ← checkNumRows node_input num_rows
  let _ ← checkNumRows source_input num_rows
  let _ ← checkNumRows dest_input num_rows
  let _ ← checkNumRows time_input num_rows
  Except.ok
    { left := left_input, right := right_input, node := node_input,
      source := source_input, dest := dest_input, time := time_input }

/-- `parse_site_table_dict` (with `clear_table` set): `num_rows` from
`position`; the `ancestral_state` offsets are checked against it; optional
`metadata` offsets are read with `check_num_rows` unset, so they overwrite
`num_rows` from their own length. -/
def parse_site_table_dict (d : SiteTableDict) : Except PyErr SiteTable := do
  let position_input ← getTableDictValueRequired d.position "position"
  let ancestral_state_input ← getTableDictValueRequired d.ancestral_state "ancestral_state"
  let ancestral_state_offset_input ←
    getTableDictValueRequired d.ancestral_state_offset "ancestral_state_offset"
  let metadata_input ← getTableDictValueOptional d.metadata "metadata"
  let metadata_offset_input ← getTableDictValueOptional d.metadata_offset "metadata_offset"
  let num_rows := position_input.length
  let _ ← checkOffsets ancestral_state_offset_input num_rows ancestral_state_input.length
  let md ← pairedColumns metadata_input metadata_offset_input
    "metadata and metadata_offset must be specified together"
  let num_rows2 ←
    match md with
    | none => Except.ok num_rows
    | some mo => freshOffsets mo.2 mo.1.length
  let anc ← tskRequiredPacked ancestral_state_input ancestral_state_offset_input
  let mdv ← tskPackedColumns num_rows2 md
  Except.ok
    { position := position_input, ancestral_state := anc.1,
      ancestral_state_offset := anc.2, metadata := mdv.1, metadata_offset := mdv.2 }

/-- `parse_mutation_table_dict` (with `clear_table` set): `num_rows` from
`site`; `derived_state` offsets and the `node` and optional `parent` columns
are checked against it; optional `metadata` offsets are read with
`check_num_rows` unset, overwriting `num_rows`; an absent `parent` column is
filled with `TSK_NULL = -1` by the append. -/
def parse_mutation_table_dict (d : MutationTableDict) : Except PyErr MutationTable := do
  let site_input ← getTableDictValueRequired d.site "site"
  let node_input ← getTableDictValueRequired d.node "node"
  let parent_input ← getTableDictValueOptional d.parent "parent"
  let derived_state_input ← getTableDictValueRequired d.derived_state "derived_state"
  let derived_state_offset_input ←
    getTableDictValueRequired d.derived_state_offset "derived_state_offset"
  let metadata_input ← getTableDictValueOptional d.metadata "metadata"
  let metadata_offset_input ← getTableDictValueOptional d.metadata_offset "metadata_offset"
  let num_rows := site_input.length
  let _ ← checkOffsets derived_state_offset_input num_rows derived_state_input.length
  let _ ← checkNumRows node_input num_rows
  let _ ←
    match parent_input with
    | none => Except.ok ()
    | some p => checkNumRows p num_rows
  let md ← pairedColumns metadata_input metadata_offset_input
    "metadata and metadata_offset must be specified together"
  let num_rows2 ←
    match md with
    | none => Except.ok num_rows
    | some mo => freshOffsets mo.2 mo.1.length
  let ds ← tskRequiredPacked derived_state_input derived_state_offset_input
  let mdv ← tskPackedColumns num_rows2 md
  Except.ok
    { site := site_input, node := node_input,
      parent := parent_input.getD (List.replicate num_rows2 (-1)),
      derived_state := ds.1, derived_state_offset := ds.2,
      metadata := mdv.1, metadata_offset := mdv.2 }

/-- `parse_population_table_dict` (with `clear_table` set): both columns are
required; the offsets are read with `check_num_rows` unset, determining
`num_rows`. -/
def parse_population_table_dict (d : PopulationTableDict) :
    Except PyErr PopulationTable := do
  let metadata_input ← getTableDictValueRequired d.metadata "metadata"
  let metadata_offset_input ← getTableDictValueRequired d.metadata_offset "metadata_offset"
  let _ ← freshOffsets metadata_offset_input metadata_input.length
  let mdv ← tskRequiredPacked metadata_input metadata_offset_input
  Except.ok { metadata := mdv.1, metadata_offset := mdv.2 }

/-- `parse_provenance_table_dict` (with `clear_table` set): all four columns
are required; the `timestamp` offsets (read with `check_num_rows` unset)
determine `num_rows`, against which the `record` offsets are checked. -/
def parse_provenance_table_dict (d : ProvenanceTableDict) :
    Except PyErr ProvenanceTable := do
  let timestamp_input ← getTableDictValueRequired d.timestamp "timestamp"
  let timestamp_offset_input ←
    getTableDictValueRequired d.timestamp_offset "timestamp_offset"
  let record_input ← getTableDictValueRequired d.record "record"
  let record_offset_input ← getTableDictValueRequired d.record_offset "record_offset"
  let num_rows ← freshOffsets timestamp_offset_input timestamp_input.length
  let _ ← checkOffsets record_offset_input num_rows record_input.length
  let ts ← tskRequiredPacked timestamp_input timestamp_offset_input
  let rec_ ← tskRequiredPacked record_input record_offset_input
  Except.ok
    { timestamp := ts.1, timestamp_offset := ts.2,
      record := rec_.1, record_offset := rec_.2 }

/-- `parse_table_collection_dict` (hence
`LightweightTableCollection_fromdict`): reads `sequence_length` (a required
number), then parses the eight table dictionaries in source order, each entry
having to be a dictionary. -/
def parse_table_collection_dict (d : TableCollectionDict) :
    Except PyErr TableCollection := do
  let seqnum ← getDictNumber d.sequence_length "sequence_length"
  let individuals ← (getTableSubDict d.individuals "individuals") >>=
    parse_individual_table_dict
  let nodes ← (getTableSubDict d.nodes "nodes") >>= parse_node_table_dict
  let edges ← (getTableSubDict d.edges "edges") >>= parse_edge_table_dict
  let migrations ← (getTableSubDict d.migrations "migrations") >>=
    parse_migration_table_dict
  let sites ← (getTableSubDict d.sites "sites") >>= parse_site_table_dict
  let mutations ← (getTableSubDict d.mutations "mutations") >>=
    parse_mutation_table_dict
  let populations ← (getTableSubDict d.populations "populations") >>=
    parse_population_table_dict
  let provenances ← (getTableSubDict d.provenances "provenances") >>=
    parse_provenance_table_dict
  Except.ok
    { sequence_length := pyFloatAsDouble seqnum, individuals := individuals,
      nodes := nodes, edges := edges, migrations := migrations, sites := sites,
      mutations := mutations, populations := populations,
      provenances := provenances }

/-- The spec's (section 6) well-formedness of an offset column for a table
with `num_rows` rows over packed data of length `data_len`: length
`num_rows + 1`, first entry 0, last entry `data_len`, monotone
non-decreasing. -/
def offsetColOk (offsets : List Nat) (num_rows data_len : Nat) : Prop :=
  offsets.length = num_rows + 1 ∧ offsets.head? = some 0 ∧
  offsets.getLast? = some data_len ∧ nondecreasing offsets = true

/-- Well-formedness of an individual table (spec, section 6). -/
def IndividualTable.wf (t : IndividualTable) : Prop :=
  offsetColOk t.location_offset t.flags.length t.location.length ∧
  offsetColOk t.metadata_offset t.flags.length t.metadata.length

/-- Well-formedness of a node table (spec, section 6). -/
def NodeTable.wf (t : NodeTable) : Prop :=
  t.time.length = t.flags.length ∧ t.population.length = t.flags.length ∧
  t.individual.length = t.flags.length ∧
  offsetColOk t.metadata_offset t.flags.length t.metadata.length

/-- Well-formedness of an edge table (spec, section 6). -/
def EdgeTable.wf (t : EdgeTable) : Prop :=
  t.right.length = t.left.length ∧ t.parent.length = t.left.length ∧
  t.child.length = t.left.length

/-- Well-formedness of a migration table (spec, section 6). -/
def MigrationTable.wf (t : MigrationTable) : Prop :=
  t.right.length = t.left.length ∧ t.node.length = t.left.length ∧
  t.source.length = t.left.length ∧ t.dest.length = t.left.length ∧
  t.time.length = t.left.length

/-- Well-formedness of a site table (spec, section 6). -/
def SiteTable.wf (t : SiteTable) : Prop :=
  offsetColOk t.ancestral_state_offset t.position.length t.ancestral_state.length ∧
  offsetColOk t.metadata_offset t.position.length t.metadata.length

/-- Well-formedness of a mutation table (spec, section 6). -/
def MutationTable.wf (t : MutationTable) : Prop :=
  t.node.length = t.site.length ∧ t.parent.length = t.site.length ∧
  offsetColOk t.derived_state_offset t.site.length t.derived_state.length ∧
  offsetColOk t.metadata_offset t.site.length t.metadata.length

/-- Well-formedness of a population table (spec, section 6). -/
def PopulationTable.wf (t : PopulationTable) : Prop :=
  1 ≤ t.metadata_offset.length ∧ t.metadata_offset.head? = some 0 ∧
  t.metadata_offset.getLast? = some t.metadata.length ∧
  nondecreasing t.metadata_offset = true

/-- Well-formedness of a provenance table (spec, section 6). -/
def ProvenanceTable.wf (t : ProvenanceTable) : Prop :=
  1 ≤ t.timestamp_offset.length ∧ t.timestamp_offset.head? = some 0 ∧
  t.timestamp_offset.getLast? = some t.timestamp.length ∧
  nondecreasing t.timestamp_offset = true ∧
  t.record_offset.length = t.timestamp_offset.length ∧
  t.record_offset.head? = some 0 ∧
  t.record_offset.getLast? = some t.record.length ∧
  nondecreasing t.record_offset = true

/-- Well-formedness of a table collection: all eight tables are well
formed. -/
def TableCollection.wf (t : TableCollection) : Prop :=
  t.individuals.wf ∧ t.nodes.wf ∧ t.edges.wf ∧ t.migrations.wf ∧
  t.sites.wf ∧ t.mutations.wf ∧ t.populations.wf ∧ t.provenances.wf

/-- Individual-table round trip (helper). -/
theorem parse_individual_table_dict_asdict (t : IndividualTable) (h : t.wf) :
    parse_individual_table_dict t.asdict = Except.ok t := by
  obtain ⟨⟨hl1, hl0, hll, hlm⟩, ⟨hm1, hm0, hml, hmm⟩⟩ := h
  simp [parse_individual_table_dict, IndividualTable.asdict,
    getTableDictValueRequired, getTableDictValueOptional, pairedColumns,
    checkOffsets, tskPackedColumns, tskCheckOffsets, except_bind_ok,
    hl1, hl0, hll, hlm, hm1, hm0, hml, hmm]

/-- Node-table round trip (helper). -/
theorem parse_node_table_dict_asdict (t : NodeTable) (h : t.wf) :
    parse_node_table_dict t.asdict = Except.ok t := by
  obtain ⟨ht, hp, hi, ⟨hm1, hm0, hml, hmm⟩⟩ := h
  simp [parse_node_table_dict, NodeTable.asdict,
    getTableDictValueRequired, getTableDictValueOptional, pairedColumns,
    checkNumRows, checkOffsets, tskPackedColumns, tskCheckOffsets, except_bind_ok,
    ht, hp, hi, hm1, hm0, hml, hmm]

/-- Edge-table round trip (helper). -/
theorem parse_edge_table_dict_asdict (t : EdgeTable) (h : t.wf) :
    parse_edge_table_dict t.asdict = Except.ok t := by
  obtain ⟨hr, hp, hc⟩ := h
  simp [parse_edge_table_dict, EdgeTable.asdict, getTableDictValueRequired,
    checkNumRows, except_bind_ok, hr, hp, hc]

/-- Migration-table round trip (helper). -/
theorem parse_migration_table_dict_asdict (t : MigrationTable) (h : t.wf) :
    parse_migration_table_dict t.asdict = Except.ok t := by
  obtain ⟨hr, hn, hs, hd, ht⟩ := h
  simp [parse_migration_table_dict, MigrationTable.asdict,
    getTableDictValueRequired, checkNumRows, except_bind_ok, hr, hn, hs, hd, ht]

/-- Site-table round trip (helper). -/
theorem parse_site_table_dict_asdict (t : SiteTable) (h : t.wf) :
    parse_site_table_dict t.asdict = Except.ok t := by
  obtain ⟨⟨ha1, ha0, hal, ham⟩, ⟨hm1, hm0, hml, hmm⟩⟩ := h
  have hmne : t.metadata_offset ≠ [] := by
    intro he
    rw [he] at hm1
    simp at hm1
  simp [parse_site_table_dict, SiteTable.asdict, getTableDictValueRequired,
    getTableDictValueOptional, pairedColumns, checkOffsets, freshOffsets,
    tskRequiredPacked, tskPackedColumns, tskCheckOffsets, except_bind_ok,
    ha1, ha0, hal, ham, hm1, hm0, hml, hmm, hmne]

/-- Mutation-table round trip (helper). -/
theorem parse_mutation_table_dict_asdict (t : MutationTable) (h : t.wf) :
    parse_mutation_table_dict t.asdict = Except.ok t := by
  obtain ⟨hn, hp, ⟨hd1, hd0, hdl, hdm⟩, ⟨hm1, hm0, hml, hmm⟩⟩ := h
  have hmne : t.metadata_offset ≠ [] := by
    intro he
    rw [he] at hm1
    simp at hm1
  simp [parse_mutation_table_dict, MutationTable.asdict,
    getTableDictValueRequired, getTableDictValueOptional, pairedColumns,
    checkNumRows, checkOffsets, freshOffsets, tskRequiredPacked,
    tskPackedColumns, tskCheckOffsets, except_bind_ok,
    hn, hp, hd1, hd0, hdl, hdm, hm1, hm0, hml, hmm, hmne]

/-- Population-table round trip (helper). -/
theorem parse_population_table_dict_asdict (t : PopulationTable) (h : t.wf) :
    parse_population_table_dict t.asdict = Except.ok t := by
  obtain ⟨h1, h0, hl, hm⟩ := h
  have hne : t.metadata_offset ≠ [] := by
    intro he
    rw [he] at h1
    simp at h1
  simp [parse_population_table_dict, PopulationTable.asdict,
    getTableDictValueRequired, freshOffsets, tskRequiredPacked,
    tskCheckOffsets, except_bind_ok, hne, h0, hl, hm]

/-- Provenance-table round trip (helper). -/
theorem parse_provenance_table_dict_asdict (t : ProvenanceTable) (h : t.wf) :
    parse_provenance_table_dict t.asdict = Except.ok t := by
  obtain ⟨h1, h0, hl, hm, hr1, hr0, hrl, hrm⟩ := h
  have hne : t.timestamp_offset ≠ [] := by
    intro he
    rw [he] at h1
    simp at h1
  have hrn : t.record_offset.length = t.timestamp_offset.length - 1 + 1 := by omega
  simp [parse_provenance_table_dict, ProvenanceTable.asdict,
    getTableDictValueRequired, freshOffsets, checkOffsets, tskRequiredPacked,
    tskCheckOffsets, except_bind_ok, hne, h0, hl, hm, hrn, hr0, hrl, hrm]

/-- **C2.** For every well-formed table collection `T` (spec, section 6:
consistent column lengths and offset columns), `fromdict(asdict(T))`
reproduces `T` exactly: the `sequence_length` scalar and every column of all
eight tables — including the packed variable-length data and offset columns —
are identical to the originals. -/
theorem fromdict_asdict_round_trip (t : TableCollection) (h : t.wf) :
    parse_table_collection_dict (dump_tables_dict t) = Except.ok t := by
  obtain ⟨h1, h2, h3, h4, h5, h6, h7, h8⟩ := h
  simp [parse_table_collection_dict, dump_tables_dict, getTableSubDict,
    getDictNumber, pyFloatAsDouble, except_bind_ok,
    parse_individual_table_dict_asdict t.individuals h1,
    parse_node_table_dict_asdict t.nodes h2,
    parse_edge_table_dict_asdict t.edges h3,
    parse_migration_table_dict_asdict t.migrations h4,
    parse_site_table_dict_asdict t.sites h5,
    parse_mutation_table_dict_asdict t.mutations h6,
    parse_population_table_dict_asdict t.populations h7,
    parse_provenance_table_dict_asdict t.provenances h8]

/-- A small concrete table collection with nonempty tables and packed
columns: the witness input for C2. -/
def round_trip_witness_tables : TableCollection :=
  { sequence_length := 10
  , individuals :=
      { flags := [0], location := [1, 2], location_offset := [0, 2],
        metadata := [7], metadata_offset := [0, 1] }
  , nodes :=
      { flags := [1, 0], time := [0, 5], population := [0, -1],
        individual := [-1, -1], metadata := [1, 2, 3], metadata_offset := [0, 1, 3] }
  , edges := { left := [0], right := [10], parent := [1], child := [0] }
  , migrations :=
      { left := [], right := [], node := [], source := [], dest := [], time := [] }
  , sites :=
      { position := [3], ancestral_state := [65], ancestral_state_offset := [0, 1],
        metadata := [], metadata_offset := [0, 0] }
  , mutations :=
      { site := [0], node := [0], parent := [-1], derived_state := [66],
        derived_state_offset := [0, 1], metadata := [9], metadata_offset := [0, 1] }
  , populations := { metadata := [4, 5], metadata_offset := [0, 2] }
  , provenances :=
      { timestamp := [1], timestamp_offset := [0, 1], record := [2, 3],
        record_offset := [0, 2] } }

/-- Witness for C2: the concrete collection is well formed and survives the
dictionary round trip unchanged. -/
theorem fromdict_asdict_round_trip_witness :
    round_trip_witness_tables.wf ∧
    parse_table_collection_dict (dump_tables_dict round_trip_witness_tables) =
      Except.ok round_trip_witness_tables := by
  have hwf : round_trip_witness_tables.wf := by
    unfold TableCollection.wf IndividualTable.wf NodeTable.wf EdgeTable.wf
      MigrationTable.wf SiteTable.wf MutationTable.wf PopulationTable.wf
      ProvenanceTable.wf offsetColOk
    decide
  exact ⟨hwf, fromdict_asdict_round_trip round_trip_witness_tables hwf⟩
